import Mathlib

/-!
Shallow embedding of the txml XML tokenizer/tree-builder/walker (src/txml.ts).

The source file contains two duplicated variants of the tokenizer:
`parseXml` (first half of the file) and `xml_tokenize` (second half).
Both are embedded below over the same small kernel of helpers; the points
where the two variants' code differs are embedded separately
(`stepNone` vs `stepNone2`, `entityMapLookup` vs `entity_mapLookup`,
`_translateEntity` vs `translateEntity`).

Modelling conventions:
* The input (`XMLInput`) is a `List Nat` of UTF-16 code units; JS
  `charCodeAt` returns `NaN` for an out-of-range index, modelled by the
  sentinel `jsNaN`, which is distinct from every code unit.  No code path
  of the source ever compares two `NaN`s with `===`, so a sentinel value
  is an adequate model of `NaN`'s `x === NaN ↔ false` behaviour.
* `line` and `column` are pure diagnostics in the source (they only occur
  in error message strings) and are omitted; error messages are modelled
  by the `TokenizeError` tag of the `_throwError` call site.
* The generator is modelled as a fuel-indexed step interpreter producing
  the list of yielded tokens.  One unit of fuel corresponds to one
  iteration of the source's `for (; pos < xml.length; ++pos)` loop.
  The source's inner `entity_loop` has no end-of-input check: past the
  end every read is `NaN`, which never equals `;`, so the JS loop runs
  forever when no `;` follows.  `entityScan` returns `none` exactly in
  that case, and the interpreter maps it to the `hung` outcome (true
  divergence, as opposed to `outOfFuel` which just means too little fuel).
-/

namespace Txml

/-- Stand-in for the JS `NaN` produced by out-of-range `charCodeAt` and by
`Number.parseInt` on non-numeric input.  It is negative, hence distinct from
every UTF-16 code unit (`0 ≤ c < 65536`). -/
def jsNaN : Int := -(2 ^ 53)

/-- source `_isAlphabetic`: `(c < 91 && c > 64) || (c < 123 && c > 96)` -/
def _isAlphabetic (c : Int) : Bool :=
  (decide (c < 91) && decide (c > 64)) || (decide (c < 123) && decide (c > 96))

/-- source `_isNumeric`: `c > 47 && c < 58` -/
def _isNumeric (c : Int) : Bool := decide (c > 47) && decide (c < 58)

/-- source `_isWhitespace`: `[CR, LF, TAB, SPACE].includes(c)` -/
def _isWhitespace (c : Int) : Bool :=
  decide (c = 13) || decide (c = 10) || decide (c = 9) || decide (c = 32)

/-- source `_isValidIdentifier`: alphabetic, numeric, `:` (58) or `-` (45) -/
def _isValidIdentifier (c : Int) : Bool :=
  _isAlphabetic c || _isNumeric c || decide (c = 58) || decide (c = 45)

/-- source enum `ParserState` -/
inductive ParserState where
  | NONE
  | READING_TAG_UNTIL_CLOSE
  | READING_TEXT_NODE
  | READING_COMMENT
  | READING_CDATA
  deriving DecidableEq, Repr

/-- source enum `ReadingTagState` -/
inductive ReadingTagState where
  | READING_TAG_NAME
  | READING_ATTR_NAME
  | EXPECTING_EQUAL_SIGN
  | READING_ATTR_VALUE
  deriving DecidableEq, Repr

/-- source enum `XMLTag` -/
inductive XMLTag where
  | NONE
  | DECLARATION
  | COMMENT
  | CDATA
  | ARBITRARY
  deriving DecidableEq, Repr

/-- source enum `XMLTokenType` -/
inductive XMLTokenType where
  | TEXT
  | TAG_OPEN
  | TAG_CLOSE
  | TAG_SELF_CLOSE
  deriving DecidableEq, Repr

/-- source type `XMLTokenAttribute` (`end` is a Lean keyword, renamed `endIdx`) -/
structure XMLTokenAttribute where
  key : List Int
  value : List Int
  term_c : Int
  start : Int
  endIdx : Int
  deriving DecidableEq, Repr

/-- source type `XMLToken` (`end` renamed `endIdx`) -/
structure XMLToken where
  type : XMLTokenType
  tag : XMLTag
  start : Int
  endIdx : Int
  content : List Int
  attributes : Option (List XMLTokenAttribute)
  deriving DecidableEq, Repr

/-- The local mutable variables of one generator invocation
(`pos`, `state`, `rtState`, `canSkipWhitespace`, `token`, `attribute`).
`line`/`column` are omitted (diagnostics only). -/
structure PState where
  pos : Int
  state : ParserState
  rtState : ReadingTagState
  canSkipWhitespace : Bool
  token : XMLToken
  attrib : XMLTokenAttribute
  deriving DecidableEq, Repr

/-- JS `xml.charCodeAt(i)`: the code unit at `i`, `NaN` out of range. -/
def charCodeAt (xml : List Nat) (i : Int) : Int :=
  if 0 ≤ i then
    match xml.get? i.toNat with
    | some c => (c : Int)
    | none => jsNaN
  else jsNaN

/-- source `_sliceEqualsStr` (identical in both variants): byte-by-byte
comparison of a needle against the input starting at `start_index`. -/
def _sliceEqualsStr (xml : List Nat) (needle : List Int) (start_index : Int) : Bool :=
  match needle with
  | [] => true
  | n :: rest => decide (charCodeAt xml start_index = n) && _sliceEqualsStr xml rest (start_index + 1)

/-- Helper for `entityScan`: scans the given suffix of the input for the first
`;` (59), returning the code points before it.  `none` means the scan ran past
the end of the input without finding `;`. -/
def entityScanList : List Nat → Option (List Int)
  | [] => none
  | c :: rest =>
    if c = 59 then some []
    else (entityScanList rest).map (fun bs => (c : Int) :: bs)

/-- Model of the source's `entity_loop` (`for (let ei = 1; 1; ++ei) ...`),
which reads `xml.charCodeAt(pos + ei)` until it sees `;`.  Past the end of the
input every read is `NaN`, which never equals `;`, so the source loop
terminates iff a `;` occurs at an in-range index `≥ i`; otherwise it runs
forever, modelled here by `none`. -/
def entityScan (xml : List Nat) (i : Nat) : Option (List Int) :=
  entityScanList (xml.drop i)

/-- JS whitespace accepted by `Number.parseInt` before the digits. -/
def jsIsSpace (c : Int) : Bool :=
  decide (c = 9) || decide (c = 10) || decide (c = 11) || decide (c = 12) ||
  decide (c = 13) || decide (c = 32) || decide (c = 160)

/-- Model of `Number.parseInt(s, 10)`: skip whitespace, optional sign, then
the longest leading run of decimal digits; `NaN` (modelled by `jsNaN`) if that
run is empty. -/
def jsParseIntDec (cs : List Int) : Int :=
  let cs1 := cs.dropWhile jsIsSpace
  let signAndRest : Bool × List Int :=
    match cs1 with
    | 45 :: rest => (true, rest)
    | 43 :: rest => (false, rest)
    | _ => (false, cs1)
  let ds := signAndRest.2.takeWhile (fun c => decide (48 ≤ c) && decide (c ≤ 57))
  if ds = [] then jsNaN
  else (if signAndRest.1 then -1 else 1) * ds.foldl (fun acc d => acc * 10 + (d - 48)) 0

/-- One tag per `_throwError`/`throwError` call site of the source. -/
inductive TokenizeError where
  | codePointNaNOrZero
  | invalidTagName
  | arbitraryTagQuestionClose
  | invalidIdentifierChar
  | identifierMustStartAlphabetic
  | invalidAttrIdentifier
  | expectedEqual
  | expectedQuote
  | entityTranslationNotFound
  | unexpectedEndOfStream
  deriving DecidableEq, Repr

/-- `entityMap` of variant 1 (`parseXml`): quot, amp, lt, gt, apos. -/
def entityMapLookup (bytes : List Int) : Option Int :=
  if bytes = [113, 117, 111, 116] then some 34        -- quot
  else if bytes = [97, 109, 112] then some 38         -- amp
  else if bytes = [108, 116] then some 60             -- lt
  else if bytes = [103, 116] then some 62             -- gt
  else if bytes = [97, 112, 111, 115] then some 39    -- apos
  else none

/-- `entity_map` of variant 2 (`xml_tokenize`): quot, amp, lt, gt (no apos). -/
def entity_mapLookup (bytes : List Int) : Option Int :=
  if bytes = [113, 117, 111, 116] then some 34        -- quot
  else if bytes = [97, 109, 112] then some 38         -- amp
  else if bytes = [108, 116] then some 60             -- lt
  else if bytes = [103, 116] then some 62             -- gt
  else none

/-- variant 1 `_translateEntity`: a name starting with `#` (35) is handed to
`Number.parseInt(rest, 10)` and its result (possibly `NaN`) returned without
any error; otherwise the fixed table is consulted and a miss throws. -/
def _translateEntity (bytes : List Int) : Except TokenizeError Int :=
  if bytes.head? = some 35 then .ok (jsParseIntDec bytes.tail)
  else
    match entityMapLookup bytes with
    | some v => .ok v
    | none => .error .entityTranslationNotFound

/-- variant 2 `translateEntity`: same, over `entity_map` (no apos). -/
def translateEntity (bytes : List Int) : Except TokenizeError Int :=
  if bytes.head? = some 35 then .ok (jsParseIntDec bytes.tail)
  else
    match entity_mapLookup bytes with
    | some v => .ok v
    | none => .error .entityTranslationNotFound

/-- source `_resetAttribute`: optionally push a frozen copy of the scratch
attribute onto the current token's attribute list, then clear the scratch. -/
def _resetAttribute (s : PState) (push_to_current_token : Bool) : PState :=
  let s1 :=
    if push_to_current_token then
      { s with token := { s.token with attributes := some ((s.token.attributes.getD []) ++ [s.attrib]) } }
    else s
  { s1 with attrib := { key := [], value := [], term_c := 0, start := -1, endIdx := -1 } }

/-- source `_resetToken` (always called with no arguments in the source):
token back to a fresh TEXT/NONE token starting at the current `pos`,
and the scratch attribute cleared. -/
def _resetToken (s : PState) : PState :=
  _resetAttribute { s with token := { type := .TEXT, tag := .NONE, start := s.pos, endIdx := -1, content := [], attributes := none } } false

/-- Outcome of one iteration of the scan loop body. -/
inductive StepOut where
  | throw (e : TokenizeError)
  | cont (s : PState)
  | yield (t : XMLToken) (s : PState)
  | hang
  deriving DecidableEq, Repr

/-- The `else` part of the `ParserState.NONE` case (`c0 === '<'`): dispatch on
the character after `<`.  This code is letter-for-letter identical in the two
variants, so both step functions use it. -/
def noneTagDispatch (xml : List Nat) (s : PState) : StepOut :=
  let c1 := charCodeAt xml (s.pos + 1)
  if c1 = 63 then
    -- `<?` : declaration, skip the `?`
    let t := { s.token with type := XMLTokenType.TAG_SELF_CLOSE, tag := XMLTag.DECLARATION, start := s.token.start + 1 }
    .cont { s with state := .READING_TAG_UNTIL_CLOSE, pos := s.pos + 1, token := t }
  else if c1 = 47 then
    -- `</` : closing tag, skip the `/`
    let t := { s.token with type := XMLTokenType.TAG_CLOSE, tag := XMLTag.ARBITRARY, start := s.token.start + 1 }
    .cont { s with state := .READING_TAG_UNTIL_CLOSE, pos := s.pos + 1, token := t }
  else if _isAlphabetic c1 then
    let t := { s.token with type := XMLTokenType.TAG_OPEN, tag := XMLTag.ARBITRARY }
    .cont { s with state := .READING_TAG_UNTIL_CLOSE, token := t }
  else if _sliceEqualsStr xml [33, 91, 67, 68, 65, 84, 65, 91] (s.pos + 1) then
    -- `![CDATA[` : skip the 8-character marker
    let t := { s.token with type := XMLTokenType.TAG_SELF_CLOSE, tag := XMLTag.CDATA, start := s.token.start + 8 }
    .cont { s with state := .READING_CDATA, pos := s.pos + 8, token := t }
  else if _sliceEqualsStr xml [33, 45, 45] (s.pos + 1) then
    -- `!--` : skip the 3-character marker
    let t := { s.token with type := XMLTokenType.TAG_SELF_CLOSE, tag := XMLTag.COMMENT, start := s.token.start + 3 }
    .cont { s with state := .READING_COMMENT, pos := s.pos + 3, token := t }
  else .throw .invalidTagName

/-- variant 1 `ParserState.NONE` case: no `_resetToken()` (the source has it
commented out); a non-`<` character backs up one position and re-runs in
`READING_TEXT_NODE`. -/
def stepNone (xml : List Nat) (s : PState) (c0 : Int) : StepOut :=
  let s := { s with canSkipWhitespace := false }
  if c0 ≠ 60 then
    .cont { s with state := .READING_TEXT_NODE, pos := s.pos - 1 }
  else noneTagDispatch xml s

/-- `ParserState.READING_COMMENT` case (identical in both variants): on `-->`
at the current position, yield and jump `pos += 3` (the loop's `++pos` then
lands one past the closer); otherwise accumulate. -/
def stepComment (xml : List Nat) (s : PState) (c0 : Int) : StepOut :=
  if c0 = 45 && _sliceEqualsStr xml [45, 45, 62] s.pos then
    let t := s.token
    let s1 := _resetToken s
    .yield t { s1 with canSkipWhitespace := true, state := .NONE, pos := s1.pos + 3 }
  else
    .cont { s with token := { s.token with content := s.token.content ++ [c0], endIdx := s.pos } }

/-- `ParserState.READING_CDATA` case (identical in both variants). -/
def stepCdata (xml : List Nat) (s : PState) (c0 : Int) : StepOut :=
  if c0 = 93 && _sliceEqualsStr xml [93, 93, 62] s.pos then
    let t := s.token
    let s1 := _resetToken s
    .yield t { s1 with canSkipWhitespace := true, state := .NONE, pos := s1.pos + 3 }
  else
    .cont { s with token := { s.token with content := s.token.content ++ [c0], endIdx := s.pos } }

/-- `ParserState.READING_TEXT_NODE` case, parametrised by the variant's
entity translator.  On `&`, the inner `entity_loop` collects everything up to
the next `;`; `entityScan = none` models its divergence (`.hang`). -/
def stepTextNode (translate : List Int → Except TokenizeError Int)
    (xml : List Nat) (s : PState) (c0 : Int) : StepOut :=
  if c0 ≠ 60 then
    if c0 = 38 then
      match entityScan xml (s.pos.toNat + 1) with
      | none => .hang
      | some bytes =>
        -- per-byte `token.end = pos + ei`, then `++token.end` for the `;`
        let newEnd := (if bytes = [] then s.token.endIdx else s.pos + bytes.length) + 1
        match translate bytes with
        | .error e => .throw e
        | .ok v =>
          let t := { s.token with content := s.token.content ++ [v], endIdx := newEnd }
          .cont { s with pos := s.pos + bytes.length + 1, token := t }
    else
      .cont { s with token := { s.token with content := s.token.content ++ [c0], endIdx := s.pos } }
  else
    let t := s.token
    let s1 := _resetToken s
    .yield t { s1 with pos := s1.pos - 1, state := .NONE, canSkipWhitespace := true }

/-- `ParserState.READING_TAG_UNTIL_CLOSE` case (identical in both variants). -/
def stepTag (xml : List Nat) (s : PState) (c0 : Int) : StepOut :=
  let c1 := charCodeAt xml (s.pos + 1)
  if (s.rtState = .READING_ATTR_NAME ∨ s.rtState = .READING_TAG_NAME) ∧
     ((c0 = 47 ∧ c1 = 62) ∨ (c0 = 63 ∧ c1 = 62) ∨ c0 = 62) then
    if s.token.tag ≠ .DECLARATION ∧ c0 = 63 then .throw .arbitraryTagQuestionClose
    else
      let newType := if c0 = 47 then XMLTokenType.TAG_SELF_CLOSE else s.token.type
      let t := { s.token with type := newType, endIdx := s.pos + (if c0 = 62 then 0 else 1) }
      let s1 := _resetToken s
      .yield t { s1 with canSkipWhitespace := true, state := .NONE, rtState := .READING_TAG_NAME, pos := s1.pos + (if c0 = 62 then 0 else 1) }
  else
    match s.rtState with
    | .READING_TAG_NAME =>
      if _isWhitespace c0 then
        .cont { s with rtState := .READING_ATTR_NAME, canSkipWhitespace := true }
      else if _isValidIdentifier c0 then
        .cont { s with token := { s.token with content := s.token.content ++ [c0] } }
      else .throw .invalidIdentifierChar
    | .READING_ATTR_NAME =>
      let s := { s with canSkipWhitespace := false }
      let s := if s.attrib.start = -1 then
                 { s with attrib := { s.attrib with start := s.pos } }
               else s
      if c0 = 32 ∨ c1 = 61 then
        let s := if c1 = 61 ∧ c0 ≠ 32 then
                   { s with attrib := { s.attrib with key := s.attrib.key ++ [c0] } }
                 else s
        .cont { s with rtState := .EXPECTING_EQUAL_SIGN, canSkipWhitespace := true }
      else if s.attrib.key.length = 0 ∧ ¬ _isAlphabetic c0 then
        .throw .identifierMustStartAlphabetic
      else if ¬ _isValidIdentifier c0 then .throw .invalidAttrIdentifier
      else .cont { s with attrib := { s.attrib with key := s.attrib.key ++ [c0] } }
    | .EXPECTING_EQUAL_SIGN =>
      if c0 = 61 then
        .cont { s with canSkipWhitespace := true, rtState := .READING_ATTR_VALUE }
      else .throw .expectedEqual
    | .READING_ATTR_VALUE =>
      let s := { s with canSkipWhitespace := false }
      if s.attrib.term_c = (0 : Int) then
        if c0 ≠ 34 ∧ c0 ≠ 39 then .throw .expectedQuote
        else .cont { s with attrib := { s.attrib with term_c := c0 } }
      else if c0 = 92 ∧ c1 = s.attrib.term_c then
        .cont { s with pos := s.pos + 1, attrib := { s.attrib with value := s.attrib.value ++ [c1] } }
      else if c0 = s.attrib.term_c then
        let s := _resetAttribute { s with attrib := { s.attrib with endIdx := s.pos } } true
        .cont { s with canSkipWhitespace := true, rtState := .READING_ATTR_NAME }
      else
        .cont { s with attrib := { s.attrib with value := s.attrib.value ++ [c0] } }

/-- One iteration of variant 1's scan loop: read `c0`, the NaN/zero check,
the whitespace skip, then dispatch on `state`. -/
def stepIter (xml : List Nat) (s : PState) : StepOut :=
  let c0 := charCodeAt xml s.pos
  if c0 = 0 ∨ c0 = jsNaN then .throw .codePointNaNOrZero
  else if s.canSkipWhitespace && _isWhitespace c0 then .cont s
  else
    match s.state with
    | .NONE => stepNone xml s c0
    | .READING_COMMENT => stepComment xml s c0
    | .READING_CDATA => stepCdata xml s c0
    | .READING_TEXT_NODE => stepTextNode _translateEntity xml s c0
    | .READING_TAG_UNTIL_CLOSE => stepTag xml s c0

/-- variant 2 `ParserState.NONE` case: calls `resetToken()` first, and a
non-`<` character is pushed directly into the fresh token's content (no
backing up — so a leading `&` of a text run is NOT entity-translated). -/
def stepNone2 (xml : List Nat) (s : PState) (c0 : Int) : StepOut :=
  let s := _resetToken { s with canSkipWhitespace := false }
  if c0 ≠ 60 then
    .cont { s with state := .READING_TEXT_NODE, token := { s.token with content := s.token.content ++ [c0] } }
  else noneTagDispatch xml s

/-- One iteration of variant 2's (`xml_tokenize`) scan loop. -/
def stepIter2 (xml : List Nat) (s : PState) : StepOut :=
  let c0 := charCodeAt xml s.pos
  if c0 = 0 ∨ c0 = jsNaN then .throw .codePointNaNOrZero
  else if s.canSkipWhitespace && _isWhitespace c0 then .cont s
  else
    match s.state with
    | .NONE => stepNone2 xml s c0
    | .READING_COMMENT => stepComment xml s c0
    | .READING_CDATA => stepCdata xml s c0
    | .READING_TEXT_NODE => stepTextNode translateEntity xml s c0
    | .READING_TAG_UNTIL_CLOSE => stepTag xml s c0

/-- Result of running the scan loop until `pos < xml.length` fails. -/
inductive LoopRes where
  | eof (toks : List XMLToken) (s : PState)
  | thrown (e : TokenizeError) (toks : List XMLToken)
  | hung (toks : List XMLToken)
  | outOfFuel (toks : List XMLToken)
  deriving DecidableEq, Repr

/-- Prepend a yielded token to a loop result's token list. -/
def LoopRes.prepend (t : XMLToken) : LoopRes → LoopRes
  | .eof ts s => .eof (t :: ts) s
  | .thrown e ts => .thrown e (t :: ts)
  | .hung ts => .hung (t :: ts)
  | .outOfFuel ts => .outOfFuel (t :: ts)

/-- The `for (; pos < xml.length; ++pos)` loop, one fuel per iteration.
The loop-update `++pos` is applied to the state a step continues with. -/
def runLoopWith (step : List Nat → PState → StepOut) (xml : List Nat) :
    Nat → PState → LoopRes
  | fuel, s =>
    if s.pos < (xml.length : Int) then
      match fuel with
      | 0 => .outOfFuel []
      | fuel' + 1 =>
        match step xml s with
        | .throw e => .thrown e []
        | .cont s1 => runLoopWith step xml fuel' { s1 with pos := s1.pos + 1 }
        | .yield t s1 => (runLoopWith step xml fuel' { s1 with pos := s1.pos + 1 }).prepend t
        | .hang => .hung []
    else .eof [] s

/-- variant 1 loop. -/
def runLoop (xml : List Nat) (fuel : Nat) (s : PState) : LoopRes :=
  runLoopWith stepIter xml fuel s

/-- variant 2 loop. -/
def runLoop2 (xml : List Nat) (fuel : Nat) (s : PState) : LoopRes :=
  runLoopWith stepIter2 xml fuel s

/-- One loop-body step with the loop-update `++pos` already applied to the
state a `cont`/`yield` continues with (proof-chaining helper). -/
def stepAdvanced (step : List Nat → PState → StepOut) (xml : List Nat) (s : PState) : StepOut :=
  match step xml s with
  | .cont s1 => .cont { s1 with pos := s1.pos + 1 }
  | .yield t s1 => .yield t { s1 with pos := s1.pos + 1 }
  | r => r

/-- Post-loop end-of-stream handling (identical in both variants): a state
other than `NONE` is an error, except a `TEXT`-typed token in progress is
flushed as a final token. -/
def finishEOS (s : PState) : Except TokenizeError (List XMLToken) :=
  if s.state ≠ .NONE then
    if s.token.type = .TEXT then .ok [s.token] else .error .unexpectedEndOfStream
  else .ok []

/-- Initial generator state (`pos = 0`, `state = NONE`,
`rtState = READING_TAG_NAME`, token start/end `-1`, attribute start/end `0`). -/
def initState (canSkipStartingWhitespace : Bool) : PState :=
  { pos := 0, state := .NONE, rtState := .READING_TAG_NAME,
    canSkipWhitespace := canSkipStartingWhitespace,
    token := { type := .TEXT, tag := .NONE, start := -1, endIdx := -1, content := [], attributes := none },
    attrib := { key := [], value := [], term_c := 0, start := 0, endIdx := 0 } }

/-- Observable outcome of a whole tokenizing run. -/
inductive TokenizeResult where
  | done (toks : List XMLToken)
  | error (e : TokenizeError) (toks : List XMLToken)
  | hung (toks : List XMLToken)
  | outOfFuel (toks : List XMLToken)
  deriving DecidableEq, Repr

/-- Glue a loop result and the post-loop end-of-stream handling. -/
def finishRun : LoopRes → TokenizeResult
  | .eof ts s =>
    match finishEOS s with
    | .ok extra => .done (ts ++ extra)
    | .error e => .error e ts
  | .thrown e ts => .error e ts
  | .hung ts => .hung ts
  | .outOfFuel ts => .outOfFuel ts

/-- variant 1 `parseXml`, as a fuel-indexed run. -/
def parseXml (xml : List Nat) (fuel : Nat) (canSkipStartingWhitespace : Bool) :
    TokenizeResult :=
  finishRun (runLoop xml fuel (initState canSkipStartingWhitespace))

/-- variant 2 `xml_tokenize`, as a fuel-indexed run. -/
def xml_tokenize (xml : List Nat) (fuel : Nat) (skipStartingWhitespace : Bool) :
    TokenizeResult :=
  finishRun (runLoop2 xml fuel (initState skipStartingWhitespace))

/-- One code unit of JS `String.fromCharCode`: `ToUint16` of the argument,
with `NaN` mapping to 0. -/
def fromCharCode (c : Int) : Nat :=
  if c = jsNaN then 0 else (c.emod 65536).toNat

/-- source `getContentAsStr`: builds a JS string (modelled as its list of
code units) from a content array, one `String.fromCharCode` per element. -/
def getContentAsStr (content : List Int) : List Nat :=
  content.map fromCharCode

/-- source `getAttributesAsMap`: `Object.fromEntries` over decoded key/value
pairs, modelled as the pair list in attribute order (no consumer embedded
here observes the JS object's duplicate-key collapsing). -/
def getAttributesAsMap (attributes : List XMLTokenAttribute) : List (List Nat × List Nat) :=
  attributes.map (fun attr => (getContentAsStr attr.key, getContentAsStr attr.value))

/-- source type `XMLNode`: element variant (ARBITRARY/DECLARATION, with
optional `attrMap` and optional `children`) or leaf variant
(NONE/CDATA/COMMENT with string content). -/
inductive XMLNode where
  | element (tag : XMLTag) (tagName : List Nat)
      (attrMap : Option (List (List Nat × List Nat))) (children : Option (List XMLNode))
  | leaf (tag : XMLTag) (content : List Nat)
  deriving Repr

/-- Result of `buildXmlTree`: the built forest together with the tokens left
unconsumed in the stream, a tag-mismatch error, or fuel exhaustion (the
recursion is fuelled; any fuel above the token count is enough). -/
inductive BuildRes where
  | ok (nodes : List XMLNode) (rest : List XMLToken)
  | mismatch (got : List Nat) (expected : List Nat)
  | outOfFuel
  deriving Repr

/-- source `buildXmlTree` over an already-materialised token list.  The
generator argument is modelled by also returning the unconsumed suffix of
the token list when a recursion level ends. -/
def buildXmlTree (fuel : Nat) (tokens : List XMLToken) (parentTagName : Option (List Nat)) :
    BuildRes :=
  match fuel with
  | 0 => .outOfFuel
  | fuel + 1 =>
    match tokens with
    | [] => .ok [] []
    | token :: rest =>
      if token.type = .TAG_CLOSE then
        -- mismatch check only when a parent name was provided; then break
        let tagName := getContentAsStr token.content
        match parentTagName with
        | some p => if p ≠ tagName then .mismatch tagName p else .ok [] rest
        | none => .ok [] rest
      else if token.tag = .NONE ∨ token.tag = .CDATA ∨ token.tag = .COMMENT then
        let node := XMLNode.leaf token.tag (getContentAsStr token.content)
        match buildXmlTree fuel rest parentTagName with
        | .ok ns r => .ok (node :: ns) r
        | e => e
      else
        -- token.tag = ARBITRARY or DECLARATION (the tags are exhaustive)
        let tagName := getContentAsStr token.content
        let attrMap := token.attributes.map getAttributesAsMap
        if token.type = .TAG_SELF_CLOSE then
          let node := XMLNode.element token.tag tagName attrMap none
          match buildXmlTree fuel rest parentTagName with
          | .ok ns r => .ok (node :: ns) r
          | e => e
        else
          match buildXmlTree fuel rest (some tagName) with
          | .ok children rest1 =>
            let node := XMLNode.element token.tag tagName attrMap (some children)
            match buildXmlTree fuel rest1 parentTagName with
            | .ok ns r => .ok (node :: ns) r
            | e => e
          | .mismatch g p => .mismatch g p
          | .outOfFuel => .outOfFuel

/-- One entry of `walkXmlNodes`' `parents` stack:
`{ type: XMLTag.ARBITRARY, tagName, attrMap }` (the `type` is always
ARBITRARY in the source and is omitted). -/
structure OpenTag where
  tagName : List Nat
  attrMap : Option (List (List Nat × List Nat))
  deriving Repr

/-- One invocation of the walker's callback: its three arguments. -/
structure Visit where
  path : List Nat
  node : XMLNode
  parents : List OpenTag
  deriving Repr

/-- Result of a walk: the callback invocations in order (JS effects modelled
as a trace), or the thrown tag-mismatch with the invocations made before it. -/
inductive WalkRes where
  | ok (visits : List Visit)
  | mismatch (expected : Option (List Nat)) (got : List Nat) (visits : List Visit)
  deriving Repr

/-- Prepend an earlier callback invocation to a walk result's trace. -/
def WalkRes.prependVisit (v : Visit) : WalkRes → WalkRes
  | .ok vs => .ok (v :: vs)
  | .mismatch e g vs => .mismatch e g (v :: vs)

/-- The loop body of source `walkXmlNodes` over a token list, carrying the
`parents` stack.  `callback` returning `true` stops the iteration
(`break tokens_loop`). -/
def walkGo (callback : List Nat → XMLNode → List OpenTag → Bool) :
    List XMLToken → List OpenTag → WalkRes
  | [], _ => .ok []
  | token :: rest, parents =>
    match token.type with
    | .TAG_OPEN =>
      let entry : OpenTag :=
        { tagName := getContentAsStr token.content,
          attrMap := token.attributes.map getAttributesAsMap }
      walkGo callback rest (parents ++ [entry])
    | .TAG_CLOSE =>
      -- `parents.pop()?.tagName` : pop from the END of the array
      let expectedClosingTagName := (parents.getLast?).map OpenTag.tagName
      let closedTagName := getContentAsStr token.content
      if some closedTagName ≠ expectedClosingTagName then
        .mismatch expectedClosingTagName closedTagName []
      else walkGo callback rest parents.dropLast
    | _ =>
      -- TAG_SELF_CLOSE and TEXT: build a complete node and call the callback
      let node : XMLNode :=
        if token.type = .TAG_SELF_CLOSE then
          .element token.tag (getContentAsStr token.content)
            (token.attributes.map getAttributesAsMap) none
        else
          .leaf token.tag (getContentAsStr token.content)
      let path := List.intercalate [46] (parents.map OpenTag.tagName)
      if callback path node parents then .ok [{ path := path, node := node, parents := parents }]
      else (walkGo callback rest parents).prependVisit { path := path, node := node, parents := parents }

/-- source `walkXmlNodes`: walk the token stream with an empty initial stack. -/
def walkXmlNodes (tokens : List XMLToken)
    (callback : List Nat → XMLNode → List OpenTag → Bool) : WalkRes :=
  walkGo callback tokens []

/-! ### Scan-state invariant

The facts maintained by every iteration of variant 1's loop, used for the
end-of-stream dichotomy and the attribute-key shape of yielded tokens. -/

/-- The first code point of the list is alphabetic. -/
def alphaHead : List Int → Prop
  | [] => False
  | c :: _ => _isAlphabetic c = true

/-- Shape of every completed attribute key: non-empty, and alphabetic-headed
unless it is a single code point (the `c1 === EQUAL` lookahead path). -/
def keyOK (key : List Int) : Prop :=
  key ≠ [] ∧ (key.length = 1 ∨ alphaHead key)

/-- All attributes of an optional attribute list are `keyOK`. -/
def attrsOK (o : Option (List XMLTokenAttribute)) : Prop :=
  ∀ l, o = some l → ∀ a ∈ l, keyOK a.key

/-- Invariant on the scan state, preserved by `stepIter`. -/
def Inv (s : PState) : Prop :=
  ((s.state = .NONE ∨ s.state = .READING_TEXT_NODE) →
     s.token.type = .TEXT ∧ s.token.attributes = none) ∧
  ((s.state = .READING_COMMENT ∨ s.state = .READING_CDATA) →
     s.token.type = .TAG_SELF_CLOSE ∧ s.token.attributes = none) ∧
  (s.state = .READING_TAG_UNTIL_CLOSE → s.token.type ≠ .TEXT) ∧
  (s.state ≠ .READING_TAG_UNTIL_CLOSE → s.rtState = .READING_TAG_NAME) ∧
  attrsOK s.token.attributes ∧
  (s.rtState = .READING_TAG_NAME → s.attrib.key = []) ∧
  (s.rtState = .READING_ATTR_NAME → s.attrib.key = [] ∨ alphaHead s.attrib.key) ∧
  ((s.rtState = .READING_ATTR_NAME ∧ s.attrib.key = []) → s.canSkipWhitespace = true) ∧
  ((s.rtState = .EXPECTING_EQUAL_SIGN ∨ s.rtState = .READING_ATTR_VALUE) →
     keyOK s.attrib.key)

/-- What the invariant yields for each step outcome. -/
def stepOutInv : StepOut → Prop
  | .cont s => Inv s
  | .yield t s => Inv s ∧ attrsOK t.attributes
  | _ => True

/-- The tokens carried by a loop result. -/
def loopResToks : LoopRes → List XMLToken
  | .eof ts _ => ts
  | .thrown _ ts => ts
  | .hung ts => ts
  | .outOfFuel ts => ts

/-- The tokens carried by a tokenizing result. -/
def tokenizeResToks : TokenizeResult → List XMLToken
  | .done ts => ts
  | .error _ ts => ts
  | .hung ts => ts
  | .outOfFuel ts => ts

/-! ### Helper lemmas -/

/-- Unfold one loop iteration while `pos` is in range. -/
theorem runLoopWith_succ (step : List Nat → PState → StepOut) (xml : List Nat)
    (fuel : Nat) (s : PState) (h : s.pos < (xml.length : Int)) :
    runLoopWith step xml (fuel + 1) s =
      match step xml s with
      | .throw e => .thrown e []
      | .cont s1 => runLoopWith step xml fuel { s1 with pos := s1.pos + 1 }
      | .yield t s1 => (runLoopWith step xml fuel { s1 with pos := s1.pos + 1 }).prepend t
      | .hang => .hung [] := by
  rw [runLoopWith.eq_def]
  simp [h]

/-- Chain lemma: an in-range iteration whose advanced step is a `cont`. -/
theorem runLoopWith_cont (step : List Nat → PState → StepOut) (xml : List Nat)
    (fuel : Nat) (s s2 : PState) (h : s.pos < (xml.length : Int))
    (hstep : stepAdvanced step xml s = .cont s2) :
    runLoopWith step xml (fuel + 1) s = runLoopWith step xml fuel s2 := by
  rw [runLoopWith_succ _ _ _ _ h]
  unfold stepAdvanced at hstep
  cases hr : step xml s <;> rw [hr] at hstep <;> simp_all

/-- Chain lemma: an in-range iteration whose advanced step is a `yield`. -/
theorem runLoopWith_yield (step : List Nat → PState → StepOut) (xml : List Nat)
    (fuel : Nat) (s s2 : PState) (t : XMLToken) (h : s.pos < (xml.length : Int))
    (hstep : stepAdvanced step xml s = .yield t s2) :
    runLoopWith step xml (fuel + 1) s = (runLoopWith step xml fuel s2).prepend t := by
  rw [runLoopWith_succ _ _ _ _ h]
  unfold stepAdvanced at hstep
  cases hr : step xml s <;> rw [hr] at hstep <;> simp_all

/-- Chain lemma: an in-range iteration that throws. -/
theorem runLoopWith_throw (step : List Nat → PState → StepOut) (xml : List Nat)
    (fuel : Nat) (s : PState) (e : TokenizeError) (h : s.pos < (xml.length : Int))
    (hstep : stepAdvanced step xml s = .throw e) :
    runLoopWith step xml (fuel + 1) s = .thrown e [] := by
  rw [runLoopWith_succ _ _ _ _ h]
  unfold stepAdvanced at hstep
  cases hr : step xml s <;> rw [hr] at hstep <;> simp_all

/-- Chain lemma: an in-range iteration that enters the divergent entity loop. -/
theorem runLoopWith_hang (step : List Nat → PState → StepOut) (xml : List Nat)
    (fuel : Nat) (s : PState) (h : s.pos < (xml.length : Int))
    (hstep : stepAdvanced step xml s = .hang) :
    runLoopWith step xml (fuel + 1) s = .hung [] := by
  rw [runLoopWith_succ _ _ _ _ h]
  unfold stepAdvanced at hstep
  cases hr : step xml s <;> rw [hr] at hstep <;> simp_all

/-- The loop exits as soon as `pos` is out of range, whatever the fuel. -/
theorem runLoopWith_eof (step : List Nat → PState → StepOut) (xml : List Nat)
    (fuel : Nat) (s : PState) (h : ¬ s.pos < (xml.length : Int)) :
    runLoopWith step xml fuel s = .eof [] s := by
  rw [runLoopWith.eq_def]
  simp [h]

/-- With `pos` in range and no fuel, the run is cut short. -/
theorem runLoopWith_zero (step : List Nat → PState → StepOut) (xml : List Nat)
    (s : PState) (h : s.pos < (xml.length : Int)) :
    runLoopWith step xml 0 s = .outOfFuel [] := by
  rw [runLoopWith.eq_def]
  simp [h]

/-- A list without `;` (59) makes the entity scan spin forever. -/
theorem entityScanList_eq_none (l : List Nat) (h : ∀ c ∈ l, c ≠ 59) :
    entityScanList l = none := by
  induction l with
  | nil => rfl
  | cons c rest ih =>
    unfold entityScanList
    have hc : c ≠ 59 := h c (by simp)
    simp [hc, ih (fun x hx => h x (by simp [hx]))]

/-! ### Claim theorems -/

/-- C1 (code bug): tokenizing `<!--hi--><![CDATA[raw<data]]>` does NOT yield
a COMMENT token and a CDATA token.  After yielding the comment, the scanner
does `pos += 3` from the first `-` of `-->` and the loop's `++pos` lands one
past the closer, skipping the `<` at index 9; the CDATA block is therefore
read as a bare text node `![CDATA[raw` and the scan then dies on `]` while
reading the tag name `data`. -/
theorem claim_c1 :
    parseXml [60, 33, 45, 45, 104, 105, 45, 45, 62, 60, 33, 91, 67, 68, 65, 84, 65, 91, 114, 97, 119, 60, 100, 97, 116, 97, 93, 93, 62] 64 false =
      .error .invalidIdentifierChar [⟨.TAG_SELF_CLOSE, .COMMENT, 2, 5, [104, 105], none⟩, ⟨.TEXT, .NONE, 6, 20, [33, 91, 67, 68, 65, 84, 65, 91, 114, 97, 119], none⟩] := by
  have h0 : runLoopWith stepIter [60, 33, 45, 45, 104, 105, 45, 45, 62, 60, 33, 91, 67, 68, 65, 84, 65, 91, 114, 97, 119, 60, 100, 97, 116, 97, 93, 93, 62] 64 (initState false) = runLoopWith stepIter [60, 33, 45, 45, 104, 105, 45, 45, 62, 60, 33, 91, 67, 68, 65, 84, 65, 91, 114, 97, 119, 60, 100, 97, 116, 97, 93, 93, 62] 63 ⟨4, .READING_COMMENT, .READING_TAG_NAME, false, ⟨.TAG_SELF_CLOSE, .COMMENT, 2, -1, [], none⟩, ⟨[], [], 0, 0, 0⟩⟩ :=
    runLoopWith_cont _ _ _ _ _ (by decide) (by decide)
  have h1 : runLoopWith stepIter [60, 33, 45, 45, 104, 105, 45, 45, 62, 60, 33, 91, 67, 68, 65, 84, 65, 91, 114, 97, 119, 60, 100, 97, 116, 97, 93, 93, 62] 63 ⟨4, .READING_COMMENT, .READING_TAG_NAME, false, ⟨.TAG_SELF_CLOSE, .COMMENT, 2, -1, [], none⟩, ⟨[], [], 0, 0, 0⟩⟩ = runLoopWith stepIter [60, 33, 45, 45, 104, 105, 45, 45, 62, 60, 33, 91, 67, 68, 65, 84, 65, 91, 114, 97, 119, 60, 100, 97, 116, 97, 93, 93, 62] 62 ⟨5, .READING_COMMENT, .READING_TAG_NAME, false, ⟨.TAG_SELF_CLOSE, .COMMENT, 2, 4, [104], none⟩, ⟨[], [], 0, 0, 0⟩⟩ :=
    runLoopWith_cont _ _ _ _ _ (by decide) (by decide)
  have h2 : runLoopWith stepIter [60, 33, 45, 45, 104, 105, 45, 45, 62, 60, 33, 91, 67, 68, 65, 84, 65, 91, 114, 97, 119, 60, 100, 97, 116, 97, 93, 93, 62] 62 ⟨5, .READING_COMMENT, .READING_TAG_NAME, false, ⟨.TAG_SELF_CLOSE, .COMMENT, 2, 4, [104], none⟩, ⟨[], [], 0, 0, 0⟩⟩ = runLoopWith stepIter [60, 33, 45, 45, 104, 105, 45, 45, 62, 60, 33, 91, 67, 68, 65, 84, 65, 91, 114, 97, 119, 60, 100, 97, 116, 97, 93, 93, 62] 61 ⟨6, .READING_COMMENT, .READING_TAG_NAME, false, ⟨.TAG_SELF_CLOSE, .COMMENT, 2, 5, [104, 105], none⟩, ⟨[], [], 0, 0, 0⟩⟩ :=
    runLoopWith_cont _ _ _ _ _ (by decide) (by decide)
  have h3 : runLoopWith stepIter [60, 33, 45, 45, 104, 105, 45, 45, 62, 60, 33, 91, 67, 68, 65, 84, 65, 91, 114, 97, 119, 60, 100, 97, 116, 97, 93, 93, 62] 61 ⟨6, .READING_COMMENT, .READING_TAG_NAME, false, ⟨.TAG_SELF_CLOSE, .COMMENT, 2, 5, [104, 105], none⟩, ⟨[], [], 0, 0, 0⟩⟩ = (runLoopWith stepIter [60, 33, 45, 45, 104, 105, 45, 45, 62, 60, 33, 91, 67, 68, 65, 84, 65, 91, 114, 97, 119, 60, 100, 97, 116, 97, 93, 93, 62] 60 ⟨10, .NONE, .READING_TAG_NAME, true, ⟨.TEXT, .NONE, 6, -1, [], none⟩, ⟨[], [], 0, -1, -1⟩⟩).prepend ⟨.TAG_SELF_CLOSE, .COMMENT, 2, 5, [104, 105], none⟩ :=
    runLoopWith_yield _ _ _ _ _ _ (by decide) (by decide)
  have h4 : runLoopWith stepIter [60, 33, 45, 45, 104, 105, 45, 45, 62, 60, 33, 91, 67, 68, 65, 84, 65, 91, 114, 97, 119, 60, 100, 97, 116, 97, 93, 93, 62] 60 ⟨10, .NONE, .READING_TAG_NAME, true, ⟨.TEXT, .NONE, 6, -1, [], none⟩, ⟨[], [], 0, -1, -1⟩⟩ = runLoopWith stepIter [60, 33, 45, 45, 104, 105, 45, 45, 62, 60, 33, 91, 67, 68, 65, 84, 65, 91, 114, 97, 119, 60, 100, 97, 116, 97, 93, 93, 62] 59 ⟨10, .READING_TEXT_NODE, .READING_TAG_NAME, false, ⟨.TEXT, .NONE, 6, -1, [], none⟩, ⟨[], [], 0, -1, -1⟩⟩ :=
    runLoopWith_cont _ _ _ _ _ (by decide) (by decide)
  have h5 : runLoopWith stepIter [60, 33, 45, 45, 104, 105, 45, 45, 62, 60, 33, 91, 67, 68, 65, 84, 65, 91, 114, 97, 119, 60, 100, 97, 116, 97, 93, 93, 62] 59 ⟨10, .READING_TEXT_NODE, .READING_TAG_NAME, false, ⟨.TEXT, .NONE, 6, -1, [], none⟩, ⟨[], [], 0, -1, -1⟩⟩ = runLoopWith stepIter [60, 33, 45, 45, 104, 105, 45, 45, 62, 60, 33, 91, 67, 68, 65, 84, 65, 91, 114, 97, 119, 60, 100, 97, 116, 97, 93, 93, 62] 58 ⟨11, .READING_TEXT_NODE, .READING_TAG_NAME, false, ⟨.TEXT, .NONE, 6, 10, [33], none⟩, ⟨[], [], 0, -1, -1⟩⟩ :=
    runLoopWith_cont _ _ _ _ _ (by decide) (by decide)
  have h6 : runLoopWith stepIter [60, 33, 45, 45, 104, 105, 45, 45, 62, 60, 33, 91, 67, 68, 65, 84, 65, 91, 114, 97, 119, 60, 100, 97, 116, 97, 93, 93, 62] 58 ⟨11, .READING_TEXT_NODE, .READING_TAG_NAME, false, ⟨.TEXT, .NONE, 6, 10, [33], none⟩, ⟨[], [], 0, -1, -1⟩⟩ = runLoopWith stepIter [60, 33, 45, 45, 104, 105, 45, 45, 62, 60, 33, 91, 67, 68, 65, 84, 65, 91, 114, 97, 119, 60, 100, 97, 116, 97, 93, 93, 62] 57 ⟨12, .READING_TEXT_NODE, .READING_TAG_NAME, false, ⟨.TEXT, .NONE, 6, 11, [33, 91], none⟩, ⟨[], [], 0, -1, -1⟩⟩ :=
    runLoopWith_cont _ _ _ _ _ (by decide) (by decide)
  have h7 : runLoopWith stepIter [60, 33, 45, 45, 104, 105, 45, 45, 62, 60, 33, 91, 67, 68, 65, 84, 65, 91, 114, 97, 119, 60, 100, 97, 116, 97, 93, 93, 62] 57 ⟨12, .READING_TEXT_NODE, .READING_TAG_NAME, false, ⟨.TEXT, .NONE, 6, 11, [33, 91], none⟩, ⟨[], [], 0, -1, -1⟩⟩ = runLoopWith stepIter [60, 33, 45, 45, 104, 105, 45, 45, 62, 60, 33, 91, 67, 68, 65, 84, 65, 91, 114, 97, 119, 60, 100, 97, 116, 97, 93, 93, 62] 56 ⟨13, .READING_TEXT_NODE, .READING_TAG_NAME, false, ⟨.TEXT, .NONE, 6, 12, [33, 91, 67], none⟩, ⟨[], [], 0, -1, -1⟩⟩ :=
    runLoopWith_cont _ _ _ _ _ (by decide) (by decide)
  have h8 : runLoopWith stepIter [60, 33, 45, 45, 104, 105, 45, 45, 62, 60, 33, 91, 67, 68, 65, 84, 65, 91, 114, 97, 119, 60, 100, 97, 116, 97, 93, 93, 62] 56 ⟨13, .READING_TEXT_NODE, .READING_TAG_NAME, false, ⟨.TEXT, .NONE, 6, 12, [33, 91, 67], none⟩, ⟨[], [], 0, -1, -1⟩⟩ = runLoopWith stepIter [60, 33, 45, 45, 104, 105, 45, 45, 62, 60, 33, 91, 67, 68, 65, 84, 65, 91, 114, 97, 119, 60, 100, 97, 116, 97, 93, 93, 62] 55 ⟨14, .READING_TEXT_NODE, .READING_TAG_NAME, false, ⟨.TEXT, .NONE, 6, 13, [33, 91, 67, 68], none⟩, ⟨[], [], 0, -1, -1⟩⟩ :=
    runLoopWith_cont _ _ _ _ _ (by decide) (by decide)
  have h9 : runLoopWith stepIter [60, 33, 45, 45, 104, 105, 45, 45, 62, 60, 33, 91, 67, 68, 65, 84, 65, 91, 114, 97, 119, 60, 100, 97, 116, 97, 93, 93, 62] 55 ⟨14, .READING_TEXT_NODE, .READING_TAG_NAME, false, ⟨.TEXT, .NONE, 6, 13, [33, 91, 67, 68], none⟩, ⟨[], [], 0, -1, -1⟩⟩ = runLoopWith stepIter [60, 33, 45, 45, 104, 105, 45, 45, 62, 60, 33, 91, 67, 68, 65, 84, 65, 91, 114, 97, 119, 60, 100, 97, 116, 97, 93, 93, 62] 54 ⟨15, .READING_TEXT_NODE, .READING_TAG_NAME, false, ⟨.TEXT, .NONE, 6, 14, [33, 91, 67, 68, 65], none⟩, ⟨[], [], 0, -1, -1⟩⟩ :=
    runLoopWith_cont _ _ _ _ _ (by decide) (by decide)
  have h10 : runLoopWith stepIter [60, 33, 45, 45, 104, 105, 45, 45, 62, 60, 33, 91, 67, 68, 65, 84, 65, 91, 114, 97, 119, 60, 100, 97, 116, 97, 93, 93, 62] 54 ⟨15, .READING_TEXT_NODE, .READING_TAG_NAME, false, ⟨.TEXT, .NONE, 6, 14, [33, 91, 67, 68, 65], none⟩, ⟨[], [], 0, -1, -1⟩⟩ = runLoopWith stepIter [60, 33, 45, 45, 104, 105, 45, 45, 62, 60, 33, 91, 67, 68, 65, 84, 65, 91, 114, 97, 119, 60, 100, 97, 116, 97, 93, 93, 62] 53 ⟨16, .READING_TEXT_NODE, .READING_TAG_NAME, false, ⟨.TEXT, .NONE, 6, 15, [33, 91, 67, 68, 65, 84], none⟩, ⟨[], [], 0, -1, -1⟩⟩ :=
    runLoopWith_cont _ _ _ _ _ (by decide) (by decide)
  have h11 : runLoopWith stepIter [60, 33, 45, 45, 104, 105, 45, 45, 62, 60, 33, 91, 67, 68, 65, 84, 65, 91, 114, 97, 119, 60, 100, 97, 116, 97, 93, 93, 62] 53 ⟨16, .READING_TEXT_NODE, .READING_TAG_NAME, false, ⟨.TEXT, .NONE, 6, 15, [33, 91, 67, 68, 65, 84], none⟩, ⟨[], [], 0, -1, -1⟩⟩ = runLoopWith stepIter [60, 33, 45, 45, 104, 105, 45, 45, 62, 60, 33, 91, 67, 68, 65, 84, 65, 91, 114, 97, 119, 60, 100, 97, 116, 97, 93, 93, 62] 52 ⟨17, .READING_TEXT_NODE, .READING_TAG_NAME, false, ⟨.TEXT, .NONE, 6, 16, [33, 91, 67, 68, 65, 84, 65], none⟩, ⟨[], [], 0, -1, -1⟩⟩ :=
    runLoopWith_cont _ _ _ _ _ (by decide) (by decide)
  have h12 : runLoopWith stepIter [60, 33, 45, 45, 104, 105, 45, 45, 62, 60, 33, 91, 67, 68, 65, 84, 65, 91, 114, 97, 119, 60, 100, 97, 116, 97, 93, 93, 62] 52 ⟨17, .READING_TEXT_NODE, .READING_TAG_NAME, false, ⟨.TEXT, .NONE, 6, 16, [33, 91, 67, 68, 65, 84, 65], none⟩, ⟨[], [], 0, -1, -1⟩⟩ = runLoopWith stepIter [60, 33, 45, 45, 104, 105, 45, 45, 62, 60, 33, 91, 67, 68, 65, 84, 65, 91, 114, 97, 119, 60, 100, 97, 116, 97, 93, 93, 62] 51 ⟨18, .READING_TEXT_NODE, .READING_TAG_NAME, false, ⟨.TEXT, .NONE, 6, 17, [33, 91, 67, 68, 65, 84, 65, 91], none⟩, ⟨[], [], 0, -1, -1⟩⟩ :=
    runLoopWith_cont _ _ _ _ _ (by decide) (by decide)
  have h13 : runLoopWith stepIter [60, 33, 45, 45, 104, 105, 45, 45, 62, 60, 33, 91, 67, 68, 65, 84, 65, 91, 114, 97, 119, 60, 100, 97, 116, 97, 93, 93, 62] 51 ⟨18, .READING_TEXT_NODE, .READING_TAG_NAME, false, ⟨.TEXT, .NONE, 6, 17, [33, 91, 67, 68, 65, 84, 65, 91], none⟩, ⟨[], [], 0, -1, -1⟩⟩ = runLoopWith stepIter [60, 33, 45, 45, 104, 105, 45, 45, 62, 60, 33, 91, 67, 68, 65, 84, 65, 91, 114, 97, 119, 60, 100, 97, 116, 97, 93, 93, 62] 50 ⟨19, .READING_TEXT_NODE, .READING_TAG_NAME, false, ⟨.TEXT, .NONE, 6, 18, [33, 91, 67, 68, 65, 84, 65, 91, 114], none⟩, ⟨[], [], 0, -1, -1⟩⟩ :=
    runLoopWith_cont _ _ _ _ _ (by decide) (by decide)
  have h14 : runLoopWith stepIter [60, 33, 45, 45, 104, 105, 45, 45, 62, 60, 33, 91, 67, 68, 65, 84, 65, 91, 114, 97, 119, 60, 100, 97, 116, 97, 93, 93, 62] 50 ⟨19, .READING_TEXT_NODE, .READING_TAG_NAME, false, ⟨.TEXT, .NONE, 6, 18, [33, 91, 67, 68, 65, 84, 65, 91, 114], none⟩, ⟨[], [], 0, -1, -1⟩⟩ = runLoopWith stepIter [60, 33, 45, 45, 104, 105, 45, 45, 62, 60, 33, 91, 67, 68, 65, 84, 65, 91, 114, 97, 119, 60, 100, 97, 116, 97, 93, 93, 62] 49 ⟨20, .READING_TEXT_NODE, .READING_TAG_NAME, false, ⟨.TEXT, .NONE, 6, 19, [33, 91, 67, 68, 65, 84, 65, 91, 114, 97], none⟩, ⟨[], [], 0, -1, -1⟩⟩ :=
    runLoopWith_cont _ _ _ _ _ (by decide) (by decide)
  have h15 : runLoopWith stepIter [60, 33, 45, 45, 104, 105, 45, 45, 62, 60, 33, 91, 67, 68, 65, 84, 65, 91, 114, 97, 119, 60, 100, 97, 116, 97, 93, 93, 62] 49 ⟨20, .READING_TEXT_NODE, .READING_TAG_NAME, false, ⟨.TEXT, .NONE, 6, 19, [33, 91, 67, 68, 65, 84, 65, 91, 114, 97], none⟩, ⟨[], [], 0, -1, -1⟩⟩ = runLoopWith stepIter [60, 33, 45, 45, 104, 105, 45, 45, 62, 60, 33, 91, 67, 68, 65, 84, 65, 91, 114, 97, 119, 60, 100, 97, 116, 97, 93, 93, 62] 48 ⟨21, .READING_TEXT_NODE, .READING_TAG_NAME, false, ⟨.TEXT, .NONE, 6, 20, [33, 91, 67, 68, 65, 84, 65, 91, 114, 97, 119], none⟩, ⟨[], [], 0, -1, -1⟩⟩ :=
    runLoopWith_cont _ _ _ _ _ (by decide) (by decide)
  have h16 : runLoopWith stepIter [60, 33, 45, 45, 104, 105, 45, 45, 62, 60, 33, 91, 67, 68, 65, 84, 65, 91, 114, 97, 119, 60, 100, 97, 116, 97, 93, 93, 62] 48 ⟨21, .READING_TEXT_NODE, .READING_TAG_NAME, false, ⟨.TEXT, .NONE, 6, 20, [33, 91, 67, 68, 65, 84, 65, 91, 114, 97, 119], none⟩, ⟨[], [], 0, -1, -1⟩⟩ = (runLoopWith stepIter [60, 33, 45, 45, 104, 105, 45, 45, 62, 60, 33, 91, 67, 68, 65, 84, 65, 91, 114, 97, 119, 60, 100, 97, 116, 97, 93, 93, 62] 47 ⟨21, .NONE, .READING_TAG_NAME, true, ⟨.TEXT, .NONE, 21, -1, [], none⟩, ⟨[], [], 0, -1, -1⟩⟩).prepend ⟨.TEXT, .NONE, 6, 20, [33, 91, 67, 68, 65, 84, 65, 91, 114, 97, 119], none⟩ :=
    runLoopWith_yield _ _ _ _ _ _ (by decide) (by decide)
  have h17 : runLoopWith stepIter [60, 33, 45, 45, 104, 105, 45, 45, 62, 60, 33, 91, 67, 68, 65, 84, 65, 91, 114, 97, 119, 60, 100, 97, 116, 97, 93, 93, 62] 47 ⟨21, .NONE, .READING_TAG_NAME, true, ⟨.TEXT, .NONE, 21, -1, [], none⟩, ⟨[], [], 0, -1, -1⟩⟩ = runLoopWith stepIter [60, 33, 45, 45, 104, 105, 45, 45, 62, 60, 33, 91, 67, 68, 65, 84, 65, 91, 114, 97, 119, 60, 100, 97, 116, 97, 93, 93, 62] 46 ⟨22, .READING_TAG_UNTIL_CLOSE, .READING_TAG_NAME, false, ⟨.TAG_OPEN, .ARBITRARY, 21, -1, [], none⟩, ⟨[], [], 0, -1, -1⟩⟩ :=
    runLoopWith_cont _ _ _ _ _ (by decide) (by decide)
  have h18 : runLoopWith stepIter [60, 33, 45, 45, 104, 105, 45, 45, 62, 60, 33, 91, 67, 68, 65, 84, 65, 91, 114, 97, 119, 60, 100, 97, 116, 97, 93, 93, 62] 46 ⟨22, .READING_TAG_UNTIL_CLOSE, .READING_TAG_NAME, false, ⟨.TAG_OPEN, .ARBITRARY, 21, -1, [], none⟩, ⟨[], [], 0, -1, -1⟩⟩ = runLoopWith stepIter [60, 33, 45, 45, 104, 105, 45, 45, 62, 60, 33, 91, 67, 68, 65, 84, 65, 91, 114, 97, 119, 60, 100, 97, 116, 97, 93, 93, 62] 45 ⟨23, .READING_TAG_UNTIL_CLOSE, .READING_TAG_NAME, false, ⟨.TAG_OPEN, .ARBITRARY, 21, -1, [100], none⟩, ⟨[], [], 0, -1, -1⟩⟩ :=
    runLoopWith_cont _ _ _ _ _ (by decide) (by decide)
  have h19 : runLoopWith stepIter [60, 33, 45, 45, 104, 105, 45, 45, 62, 60, 33, 91, 67, 68, 65, 84, 65, 91, 114, 97, 119, 60, 100, 97, 116, 97, 93, 93, 62] 45 ⟨23, .READING_TAG_UNTIL_CLOSE, .READING_TAG_NAME, false, ⟨.TAG_OPEN, .ARBITRARY, 21, -1, [100], none⟩, ⟨[], [], 0, -1, -1⟩⟩ = runLoopWith stepIter [60, 33, 45, 45, 104, 105, 45, 45, 62, 60, 33, 91, 67, 68, 65, 84, 65, 91, 114, 97, 119, 60, 100, 97, 116, 97, 93, 93, 62] 44 ⟨24, .READING_TAG_UNTIL_CLOSE, .READING_TAG_NAME, false, ⟨.TAG_OPEN, .ARBITRARY, 21, -1, [100, 97], none⟩, ⟨[], [], 0, -1, -1⟩⟩ :=
    runLoopWith_cont _ _ _ _ _ (by decide) (by decide)
  have h20 : runLoopWith stepIter [60, 33, 45, 45, 104, 105, 45, 45, 62, 60, 33, 91, 67, 68, 65, 84, 65, 91, 114, 97, 119, 60, 100, 97, 116, 97, 93, 93, 62] 44 ⟨24, .READING_TAG_UNTIL_CLOSE, .READING_TAG_NAME, false, ⟨.TAG_OPEN, .ARBITRARY, 21, -1, [100, 97], none⟩, ⟨[], [], 0, -1, -1⟩⟩ = runLoopWith stepIter [60, 33, 45, 45, 104, 105, 45, 45, 62, 60, 33, 91, 67, 68, 65, 84, 65, 91, 114, 97, 119, 60, 100, 97, 116, 97, 93, 93, 62] 43 ⟨25, .READING_TAG_UNTIL_CLOSE, .READING_TAG_NAME, false, ⟨.TAG_OPEN, .ARBITRARY, 21, -1, [100, 97, 116], none⟩, ⟨[], [], 0, -1, -1⟩⟩ :=
    runLoopWith_cont _ _ _ _ _ (by decide) (by decide)
  have h21 : runLoopWith stepIter [60, 33, 45, 45, 104, 105, 45, 45, 62, 60, 33, 91, 67, 68, 65, 84, 65, 91, 114, 97, 119, 60, 100, 97, 116, 97, 93, 93, 62] 43 ⟨25, .READING_TAG_UNTIL_CLOSE, .READING_TAG_NAME, false, ⟨.TAG_OPEN, .ARBITRARY, 21, -1, [100, 97, 116], none⟩, ⟨[], [], 0, -1, -1⟩⟩ = runLoopWith stepIter [60, 33, 45, 45, 104, 105, 45, 45, 62, 60, 33, 91, 67, 68, 65, 84, 65, 91, 114, 97, 119, 60, 100, 97, 116, 97, 93, 93, 62] 42 ⟨26, .READING_TAG_UNTIL_CLOSE, .READING_TAG_NAME, false, ⟨.TAG_OPEN, .ARBITRARY, 21, -1, [100, 97, 116, 97], none⟩, ⟨[], [], 0, -1, -1⟩⟩ :=
    runLoopWith_cont _ _ _ _ _ (by decide) (by decide)
  have h22 : runLoopWith stepIter [60, 33, 45, 45, 104, 105, 45, 45, 62, 60, 33, 91, 67, 68, 65, 84, 65, 91, 114, 97, 119, 60, 100, 97, 116, 97, 93, 93, 62] 42 ⟨26, .READING_TAG_UNTIL_CLOSE, .READING_TAG_NAME, false, ⟨.TAG_OPEN, .ARBITRARY, 21, -1, [100, 97, 116, 97], none⟩, ⟨[], [], 0, -1, -1⟩⟩ = .thrown .invalidIdentifierChar [] :=
    runLoopWith_throw _ _ _ _ _ (by decide) (by decide)
  show finishRun (runLoopWith stepIter [60, 33, 45, 45, 104, 105, 45, 45, 62, 60, 33, 91, 67, 68, 65, 84, 65, 91, 114, 97, 119, 60, 100, 97, 116, 97, 93, 93, 62] 64 (initState false)) = _
  rw [h0, h1, h2, h3, h4, h5, h6, h7, h8, h9, h10, h11, h12, h13, h14, h15, h16, h17, h18, h19, h20, h21, h22]
  decide

/-- C2 (code bug): on the input `&x` (a text run containing `&` with no `;`
anywhere after it) `parseXml` never completes and never throws: whatever the
fuel, the run is either still unfinished or stuck in the `entity_loop`, which
scans for a `;` it can never find (out-of-range reads give `NaN`). -/
theorem claim_c2 (fuel : Nat) :
    parseXml [38, 120] fuel false = .hung [] ∨
    parseXml [38, 120] fuel false = .outOfFuel [] := by
  match fuel with
  | 0 => exact .inr rfl
  | 1 => exact .inr rfl
  | n + 2 =>
    left
    have h0 : runLoopWith stepIter [38, 120] (n + 1 + 1) (initState false) =
        runLoopWith stepIter [38, 120] (n + 1)
          ⟨0, .READING_TEXT_NODE, .READING_TAG_NAME, false, ⟨.TEXT, .NONE, -1, -1, [], none⟩, ⟨[], [], 0, 0, 0⟩⟩ :=
      runLoopWith_cont _ _ _ _ _ (by decide) (by decide)
    have h1 : runLoopWith stepIter [38, 120] (n + 1)
        ⟨0, .READING_TEXT_NODE, .READING_TAG_NAME, false, ⟨.TEXT, .NONE, -1, -1, [], none⟩, ⟨[], [], 0, 0, 0⟩⟩ = .hung [] :=
      runLoopWith_hang _ _ _ _ (by decide) (by decide)
    show finishRun (runLoopWith stepIter [38, 120] (n + 1 + 1) (initState false)) = _
    rw [h0, h1]
    rfl

/-- C8 (confirmed): `<a ?>` aborts with the `?>`-closing-a-non-declaration
error, while `<?xml ?>` tokenizes to a single DECLARATION token. -/
theorem claim_c8 :
    parseXml [60, 97, 32, 63, 62] 9 false = .error .arbitraryTagQuestionClose [] ∧
    parseXml [60, 63, 120, 109, 108, 32, 63, 62] 9 false =
      .done [⟨.TAG_SELF_CLOSE, .DECLARATION, 0, 7, [120, 109, 108], none⟩] := by
  constructor
  case left =>
    have h0 : runLoopWith stepIter [60, 97, 32, 63, 62] 9 (initState false) = runLoopWith stepIter [60, 97, 32, 63, 62] 8 ⟨1, .READING_TAG_UNTIL_CLOSE, .READING_TAG_NAME, false, ⟨.TAG_OPEN, .ARBITRARY, -1, -1, [], none⟩, ⟨[], [], 0, 0, 0⟩⟩ :=
      runLoopWith_cont _ _ _ _ _ (by decide) (by decide)
    have h1 : runLoopWith stepIter [60, 97, 32, 63, 62] 8 ⟨1, .READING_TAG_UNTIL_CLOSE, .READING_TAG_NAME, false, ⟨.TAG_OPEN, .ARBITRARY, -1, -1, [], none⟩, ⟨[], [], 0, 0, 0⟩⟩ = runLoopWith stepIter [60, 97, 32, 63, 62] 7 ⟨2, .READING_TAG_UNTIL_CLOSE, .READING_TAG_NAME, false, ⟨.TAG_OPEN, .ARBITRARY, -1, -1, [97], none⟩, ⟨[], [], 0, 0, 0⟩⟩ :=
      runLoopWith_cont _ _ _ _ _ (by decide) (by decide)
    have h2 : runLoopWith stepIter [60, 97, 32, 63, 62] 7 ⟨2, .READING_TAG_UNTIL_CLOSE, .READING_TAG_NAME, false, ⟨.TAG_OPEN, .ARBITRARY, -1, -1, [97], none⟩, ⟨[], [], 0, 0, 0⟩⟩ = runLoopWith stepIter [60, 97, 32, 63, 62] 6 ⟨3, .READING_TAG_UNTIL_CLOSE, .READING_ATTR_NAME, true, ⟨.TAG_OPEN, .ARBITRARY, -1, -1, [97], none⟩, ⟨[], [], 0, 0, 0⟩⟩ :=
      runLoopWith_cont _ _ _ _ _ (by decide) (by decide)
    have h3 : runLoopWith stepIter [60, 97, 32, 63, 62] 6 ⟨3, .READING_TAG_UNTIL_CLOSE, .READING_ATTR_NAME, true, ⟨.TAG_OPEN, .ARBITRARY, -1, -1, [97], none⟩, ⟨[], [], 0, 0, 0⟩⟩ = .thrown .arbitraryTagQuestionClose [] :=
      runLoopWith_throw _ _ _ _ _ (by decide) (by decide)
    show finishRun (runLoopWith stepIter [60, 97, 32, 63, 62] 9 (initState false)) = _
    rw [h0, h1, h2, h3]
    decide
  case right =>
    have h0 : runLoopWith stepIter [60, 63, 120, 109, 108, 32, 63, 62] 9 (initState false) = runLoopWith stepIter [60, 63, 120, 109, 108, 32, 63, 62] 8 ⟨2, .READING_TAG_UNTIL_CLOSE, .READING_TAG_NAME, false, ⟨.TAG_SELF_CLOSE, .DECLARATION, 0, -1, [], none⟩, ⟨[], [], 0, 0, 0⟩⟩ :=
      runLoopWith_cont _ _ _ _ _ (by decide) (by decide)
    have h1 : runLoopWith stepIter [60, 63, 120, 109, 108, 32, 63, 62] 8 ⟨2, .READING_TAG_UNTIL_CLOSE, .READING_TAG_NAME, false, ⟨.TAG_SELF_CLOSE, .DECLARATION, 0, -1, [], none⟩, ⟨[], [], 0, 0, 0⟩⟩ = runLoopWith stepIter [60, 63, 120, 109, 108, 32, 63, 62] 7 ⟨3, .READING_TAG_UNTIL_CLOSE, .READING_TAG_NAME, false, ⟨.TAG_SELF_CLOSE, .DECLARATION, 0, -1, [120], none⟩, ⟨[], [], 0, 0, 0⟩⟩ :=
      runLoopWith_cont _ _ _ _ _ (by decide) (by decide)
    have h2 : runLoopWith stepIter [60, 63, 120, 109, 108, 32, 63, 62] 7 ⟨3, .READING_TAG_UNTIL_CLOSE, .READING_TAG_NAME, false, ⟨.TAG_SELF_CLOSE, .DECLARATION, 0, -1, [120], none⟩, ⟨[], [], 0, 0, 0⟩⟩ = runLoopWith stepIter [60, 63, 120, 109, 108, 32, 63, 62] 6 ⟨4, .READING_TAG_UNTIL_CLOSE, .READING_TAG_NAME, false, ⟨.TAG_SELF_CLOSE, .DECLARATION, 0, -1, [120, 109], none⟩, ⟨[], [], 0, 0, 0⟩⟩ :=
      runLoopWith_cont _ _ _ _ _ (by decide) (by decide)
    have h3 : runLoopWith stepIter [60, 63, 120, 109, 108, 32, 63, 62] 6 ⟨4, .READING_TAG_UNTIL_CLOSE, .READING_TAG_NAME, false, ⟨.TAG_SELF_CLOSE, .DECLARATION, 0, -1, [120, 109], none⟩, ⟨[], [], 0, 0, 0⟩⟩ = runLoopWith stepIter [60, 63, 120, 109, 108, 32, 63, 62] 5 ⟨5, .READING_TAG_UNTIL_CLOSE, .READING_TAG_NAME, false, ⟨.TAG_SELF_CLOSE, .DECLARATION, 0, -1, [120, 109, 108], none⟩, ⟨[], [], 0, 0, 0⟩⟩ :=
      runLoopWith_cont _ _ _ _ _ (by decide) (by decide)
    have h4 : runLoopWith stepIter [60, 63, 120, 109, 108, 32, 63, 62] 5 ⟨5, .READING_TAG_UNTIL_CLOSE, .READING_TAG_NAME, false, ⟨.TAG_SELF_CLOSE, .DECLARATION, 0, -1, [120, 109, 108], none⟩, ⟨[], [], 0, 0, 0⟩⟩ = runLoopWith stepIter [60, 63, 120, 109, 108, 32, 63, 62] 4 ⟨6, .READING_TAG_UNTIL_CLOSE, .READING_ATTR_NAME, true, ⟨.TAG_SELF_CLOSE, .DECLARATION, 0, -1, [120, 109, 108], none⟩, ⟨[], [], 0, 0, 0⟩⟩ :=
      runLoopWith_cont _ _ _ _ _ (by decide) (by decide)
    have h5 : runLoopWith stepIter [60, 63, 120, 109, 108, 32, 63, 62] 4 ⟨6, .READING_TAG_UNTIL_CLOSE, .READING_ATTR_NAME, true, ⟨.TAG_SELF_CLOSE, .DECLARATION, 0, -1, [120, 109, 108], none⟩, ⟨[], [], 0, 0, 0⟩⟩ = (runLoopWith stepIter [60, 63, 120, 109, 108, 32, 63, 62] 3 ⟨8, .NONE, .READING_TAG_NAME, true, ⟨.TEXT, .NONE, 6, -1, [], none⟩, ⟨[], [], 0, -1, -1⟩⟩).prepend ⟨.TAG_SELF_CLOSE, .DECLARATION, 0, 7, [120, 109, 108], none⟩ :=
      runLoopWith_yield _ _ _ _ _ _ (by decide) (by decide)
    have h6 : runLoopWith stepIter [60, 63, 120, 109, 108, 32, 63, 62] 3 ⟨8, .NONE, .READING_TAG_NAME, true, ⟨.TEXT, .NONE, 6, -1, [], none⟩, ⟨[], [], 0, -1, -1⟩⟩ = .eof [] ⟨8, .NONE, .READING_TAG_NAME, true, ⟨.TEXT, .NONE, 6, -1, [], none⟩, ⟨[], [], 0, -1, -1⟩⟩ :=
      runLoopWith_eof _ _ _ _ (by decide)
    show finishRun (runLoopWith stepIter [60, 63, 120, 109, 108, 32, 63, 62] 9 (initState false)) = _
    rw [h0, h1, h2, h3, h4, h5, h6]
    decide

/-- C3 counterexample: on `<a 1='v'>` the yielded token carries an attribute
whose key is `1` — non-empty but NOT starting with an alphabetic character
(the `c1 === EQUAL` lookahead in READING_ATTR_NAME bypasses the alphabetic
check). -/
theorem claim_c3_counterexample :
    parseXml [60, 97, 32, 49, 61, 39, 118, 39, 62] 9 false =
      .done [⟨.TAG_OPEN, .ARBITRARY, -1, 8, [97], some [⟨[49], [118], 39, 0, 7⟩]⟩] ∧
    _isAlphabetic 49 = false := by
  constructor
  case left =>
    have h0 : runLoopWith stepIter [60, 97, 32, 49, 61, 39, 118, 39, 62] 9 (initState false) = runLoopWith stepIter [60, 97, 32, 49, 61, 39, 118, 39, 62] 8 ⟨1, .READING_TAG_UNTIL_CLOSE, .READING_TAG_NAME, false, ⟨.TAG_OPEN, .ARBITRARY, -1, -1, [], none⟩, ⟨[], [], 0, 0, 0⟩⟩ :=
      runLoopWith_cont _ _ _ _ _ (by decide) (by decide)
    have h1 : runLoopWith stepIter [60, 97, 32, 49, 61, 39, 118, 39, 62] 8 ⟨1, .READING_TAG_UNTIL_CLOSE, .READING_TAG_NAME, false, ⟨.TAG_OPEN, .ARBITRARY, -1, -1, [], none⟩, ⟨[], [], 0, 0, 0⟩⟩ = runLoopWith stepIter [60, 97, 32, 49, 61, 39, 118, 39, 62] 7 ⟨2, .READING_TAG_UNTIL_CLOSE, .READING_TAG_NAME, false, ⟨.TAG_OPEN, .ARBITRARY, -1, -1, [97], none⟩, ⟨[], [], 0, 0, 0⟩⟩ :=
      runLoopWith_cont _ _ _ _ _ (by decide) (by decide)
    have h2 : runLoopWith stepIter [60, 97, 32, 49, 61, 39, 118, 39, 62] 7 ⟨2, .READING_TAG_UNTIL_CLOSE, .READING_TAG_NAME, false, ⟨.TAG_OPEN, .ARBITRARY, -1, -1, [97], none⟩, ⟨[], [], 0, 0, 0⟩⟩ = runLoopWith stepIter [60, 97, 32, 49, 61, 39, 118, 39, 62] 6 ⟨3, .READING_TAG_UNTIL_CLOSE, .READING_ATTR_NAME, true, ⟨.TAG_OPEN, .ARBITRARY, -1, -1, [97], none⟩, ⟨[], [], 0, 0, 0⟩⟩ :=
      runLoopWith_cont _ _ _ _ _ (by decide) (by decide)
    have h3 : runLoopWith stepIter [60, 97, 32, 49, 61, 39, 118, 39, 62] 6 ⟨3, .READING_TAG_UNTIL_CLOSE, .READING_ATTR_NAME, true, ⟨.TAG_OPEN, .ARBITRARY, -1, -1, [97], none⟩, ⟨[], [], 0, 0, 0⟩⟩ = runLoopWith stepIter [60, 97, 32, 49, 61, 39, 118, 39, 62] 5 ⟨4, .READING_TAG_UNTIL_CLOSE, .EXPECTING_EQUAL_SIGN, true, ⟨.TAG_OPEN, .ARBITRARY, -1, -1, [97], none⟩, ⟨[49], [], 0, 0, 0⟩⟩ :=
      runLoopWith_cont _ _ _ _ _ (by decide) (by decide)
    have h4 : runLoopWith stepIter [60, 97, 32, 49, 61, 39, 118, 39, 62] 5 ⟨4, .READING_TAG_UNTIL_CLOSE, .EXPECTING_EQUAL_SIGN, true, ⟨.TAG_OPEN, .ARBITRARY, -1, -1, [97], none⟩, ⟨[49], [], 0, 0, 0⟩⟩ = runLoopWith stepIter [60, 97, 32, 49, 61, 39, 118, 39, 62] 4 ⟨5, .READING_TAG_UNTIL_CLOSE, .READING_ATTR_VALUE, true, ⟨.TAG_OPEN, .ARBITRARY, -1, -1, [97], none⟩, ⟨[49], [], 0, 0, 0⟩⟩ :=
      runLoopWith_cont _ _ _ _ _ (by decide) (by decide)
    have h5 : runLoopWith stepIter [60, 97, 32, 49, 61, 39, 118, 39, 62] 4 ⟨5, .READING_TAG_UNTIL_CLOSE, .READING_ATTR_VALUE, true, ⟨.TAG_OPEN, .ARBITRARY, -1, -1, [97], none⟩, ⟨[49], [], 0, 0, 0⟩⟩ = runLoopWith stepIter [60, 97, 32, 49, 61, 39, 118, 39, 62] 3 ⟨6, .READING_TAG_UNTIL_CLOSE, .READING_ATTR_VALUE, false, ⟨.TAG_OPEN, .ARBITRARY, -1, -1, [97], none⟩, ⟨[49], [], 39, 0, 0⟩⟩ :=
      runLoopWith_cont _ _ _ _ _ (by decide) (by decide)
    have h6 : runLoopWith stepIter [60, 97, 32, 49, 61, 39, 118, 39, 62] 3 ⟨6, .READING_TAG_UNTIL_CLOSE, .READING_ATTR_VALUE, false, ⟨.TAG_OPEN, .ARBITRARY, -1, -1, [97], none⟩, ⟨[49], [], 39, 0, 0⟩⟩ = runLoopWith stepIter [60, 97, 32, 49, 61, 39, 118, 39, 62] 2 ⟨7, .READING_TAG_UNTIL_CLOSE, .READING_ATTR_VALUE, false, ⟨.TAG_OPEN, .ARBITRARY, -1, -1, [97], none⟩, ⟨[49], [118], 39, 0, 0⟩⟩ :=
      runLoopWith_cont _ _ _ _ _ (by decide) (by decide)
    have h7 : runLoopWith stepIter [60, 97, 32, 49, 61, 39, 118, 39, 62] 2 ⟨7, .READING_TAG_UNTIL_CLOSE, .READING_ATTR_VALUE, false, ⟨.TAG_OPEN, .ARBITRARY, -1, -1, [97], none⟩, ⟨[49], [118], 39, 0, 0⟩⟩ = runLoopWith stepIter [60, 97, 32, 49, 61, 39, 118, 39, 62] 1 ⟨8, .READING_TAG_UNTIL_CLOSE, .READING_ATTR_NAME, true, ⟨.TAG_OPEN, .ARBITRARY, -1, -1, [97], some [⟨[49], [118], 39, 0, 7⟩]⟩, ⟨[], [], 0, -1, -1⟩⟩ :=
      runLoopWith_cont _ _ _ _ _ (by decide) (by decide)
    have h8 : runLoopWith stepIter [60, 97, 32, 49, 61, 39, 118, 39, 62] 1 ⟨8, .READING_TAG_UNTIL_CLOSE, .READING_ATTR_NAME, true, ⟨.TAG_OPEN, .ARBITRARY, -1, -1, [97], some [⟨[49], [118], 39, 0, 7⟩]⟩, ⟨[], [], 0, -1, -1⟩⟩ = (runLoopWith stepIter [60, 97, 32, 49, 61, 39, 118, 39, 62] 0 ⟨9, .NONE, .READING_TAG_NAME, true, ⟨.TEXT, .NONE, 8, -1, [], none⟩, ⟨[], [], 0, -1, -1⟩⟩).prepend ⟨.TAG_OPEN, .ARBITRARY, -1, 8, [97], some [⟨[49], [118], 39, 0, 7⟩]⟩ :=
      runLoopWith_yield _ _ _ _ _ _ (by decide) (by decide)
    have h9 : runLoopWith stepIter [60, 97, 32, 49, 61, 39, 118, 39, 62] 0 ⟨9, .NONE, .READING_TAG_NAME, true, ⟨.TEXT, .NONE, 8, -1, [], none⟩, ⟨[], [], 0, -1, -1⟩⟩ = .eof [] ⟨9, .NONE, .READING_TAG_NAME, true, ⟨.TEXT, .NONE, 8, -1, [], none⟩, ⟨[], [], 0, -1, -1⟩⟩ :=
      runLoopWith_eof _ _ _ _ (by decide)
    show finishRun (runLoopWith stepIter [60, 97, 32, 49, 61, 39, 118, 39, 62] 9 (initState false)) = _
    rw [h0, h1, h2, h3, h4, h5, h6, h7, h8, h9]
    decide
  case right => rfl

/-- C4 counterexample: `&#z;` is NOT fatal: `_translateEntity` hands every
name starting with `#` to `Number.parseInt`, which yields `NaN` here, and the
scan completes with the `NaN` silently appended to the text content. -/
theorem claim_c4_counterexample :
    parseXml [38, 35, 122, 59] 9 false = .done [⟨.TEXT, .NONE, -1, 3, [jsNaN], none⟩] := by
  have h0 : runLoopWith stepIter [38, 35, 122, 59] 9 (initState false) = runLoopWith stepIter [38, 35, 122, 59] 8 ⟨0, .READING_TEXT_NODE, .READING_TAG_NAME, false, ⟨.TEXT, .NONE, -1, -1, [], none⟩, ⟨[], [], 0, 0, 0⟩⟩ :=
    runLoopWith_cont _ _ _ _ _ (by decide) (by decide)
  have h1 : runLoopWith stepIter [38, 35, 122, 59] 8 ⟨0, .READING_TEXT_NODE, .READING_TAG_NAME, false, ⟨.TEXT, .NONE, -1, -1, [], none⟩, ⟨[], [], 0, 0, 0⟩⟩ = runLoopWith stepIter [38, 35, 122, 59] 7 ⟨4, .READING_TEXT_NODE, .READING_TAG_NAME, false, ⟨.TEXT, .NONE, -1, 3, [jsNaN], none⟩, ⟨[], [], 0, 0, 0⟩⟩ :=
    runLoopWith_cont _ _ _ _ _ (by decide) (by decide)
  have h2 : runLoopWith stepIter [38, 35, 122, 59] 7 ⟨4, .READING_TEXT_NODE, .READING_TAG_NAME, false, ⟨.TEXT, .NONE, -1, 3, [jsNaN], none⟩, ⟨[], [], 0, 0, 0⟩⟩ = .eof [] ⟨4, .READING_TEXT_NODE, .READING_TAG_NAME, false, ⟨.TEXT, .NONE, -1, 3, [jsNaN], none⟩, ⟨[], [], 0, 0, 0⟩⟩ :=
    runLoopWith_eof _ _ _ _ (by decide)
  show finishRun (runLoopWith stepIter [38, 35, 122, 59] 9 (initState false)) = _
  rw [h0, h1, h2]
  decide

/-- C4 amended: in a text run, an entity name that does not start with `#`
(35) and is none of quot/amp/lt/gt/apos aborts the scan with the
entity-translation error; a name starting with `#` never throws (it decodes
via decimal `parseInt`, possibly to `NaN`). -/
theorem claim_c4 (xml : List Nat) (s : PState) (bytes : List Int)
    (hscan : entityScan xml (s.pos.toNat + 1) = some bytes) :
    ((bytes.head? ≠ some 35 ∧
      bytes ≠ [113, 117, 111, 116] ∧ bytes ≠ [97, 109, 112] ∧ bytes ≠ [108, 116] ∧
      bytes ≠ [103, 116] ∧ bytes ≠ [97, 112, 111, 115]) →
      stepTextNode _translateEntity xml s 38 = .throw .entityTranslationNotFound) ∧
    (bytes.head? = some 35 →
      ∃ s1, stepTextNode _translateEntity xml s 38 = .cont s1) := by
  constructor
  · rintro ⟨h0, h1, h2, h3, h4, h5⟩
    unfold stepTextNode
    simp only [hscan]
    have : _translateEntity bytes = .error .entityTranslationNotFound := by
      unfold _translateEntity entityMapLookup
      simp [h0, h1, h2, h3, h4, h5]
    simp [this]
  · intro h0
    unfold stepTextNode
    simp only [hscan]
    have : _translateEntity bytes = .ok (jsParseIntDec bytes.tail) := by
      unfold _translateEntity
      simp [h0]
    simp [this]

/-- C4 witness: the amended theorem applied to the concrete text runs
`&oops;` (fatal) and `&#z;` (silently decoded). -/
theorem claim_c4_witness :
    stepTextNode _translateEntity [38, 111, 111, 112, 115, 59] (initState false) 38 =
      .throw .entityTranslationNotFound ∧
    ∃ s1, stepTextNode _translateEntity [38, 35, 122, 59] (initState false) 38 = .cont s1 := by
  constructor
  · exact (claim_c4 [38, 111, 111, 112, 115, 59] (initState false) [111, 111, 112, 115] rfl).1
      (by refine ⟨by decide, by decide, by decide, by decide, by decide, by decide⟩)
  · exact (claim_c4 [38, 35, 122, 59] (initState false) [35, 122] rfl).2 rfl

/-- C5 counterexample: the two variants are not behaviourally equivalent: on
`a&apos;`, `parseXml` (whose entity table contains `apos`) yields one TEXT
token decoding to `a'`, while `xml_tokenize` (whose table lacks `apos`)
throws the entity-translation error. -/
theorem claim_c5_counterexample :
    parseXml [97, 38, 97, 112, 111, 115, 59] 9 false =
      .done [⟨.TEXT, .NONE, -1, 6, [97, 39], none⟩] ∧
    xml_tokenize [97, 38, 97, 112, 111, 115, 59] 9 false =
      .error .entityTranslationNotFound [] := by
  constructor
  case left =>
    have h0 : runLoopWith stepIter [97, 38, 97, 112, 111, 115, 59] 9 (initState false) = runLoopWith stepIter [97, 38, 97, 112, 111, 115, 59] 8 ⟨0, .READING_TEXT_NODE, .READING_TAG_NAME, false, ⟨.TEXT, .NONE, -1, -1, [], none⟩, ⟨[], [], 0, 0, 0⟩⟩ :=
      runLoopWith_cont _ _ _ _ _ (by decide) (by decide)
    have h1 : runLoopWith stepIter [97, 38, 97, 112, 111, 115, 59] 8 ⟨0, .READING_TEXT_NODE, .READING_TAG_NAME, false, ⟨.TEXT, .NONE, -1, -1, [], none⟩, ⟨[], [], 0, 0, 0⟩⟩ = runLoopWith stepIter [97, 38, 97, 112, 111, 115, 59] 7 ⟨1, .READING_TEXT_NODE, .READING_TAG_NAME, false, ⟨.TEXT, .NONE, -1, 0, [97], none⟩, ⟨[], [], 0, 0, 0⟩⟩ :=
      runLoopWith_cont _ _ _ _ _ (by decide) (by decide)
    have h2 : runLoopWith stepIter [97, 38, 97, 112, 111, 115, 59] 7 ⟨1, .READING_TEXT_NODE, .READING_TAG_NAME, false, ⟨.TEXT, .NONE, -1, 0, [97], none⟩, ⟨[], [], 0, 0, 0⟩⟩ = runLoopWith stepIter [97, 38, 97, 112, 111, 115, 59] 6 ⟨7, .READING_TEXT_NODE, .READING_TAG_NAME, false, ⟨.TEXT, .NONE, -1, 6, [97, 39], none⟩, ⟨[], [], 0, 0, 0⟩⟩ :=
      runLoopWith_cont _ _ _ _ _ (by decide) (by decide)
    have h3 : runLoopWith stepIter [97, 38, 97, 112, 111, 115, 59] 6 ⟨7, .READING_TEXT_NODE, .READING_TAG_NAME, false, ⟨.TEXT, .NONE, -1, 6, [97, 39], none⟩, ⟨[], [], 0, 0, 0⟩⟩ = .eof [] ⟨7, .READING_TEXT_NODE, .READING_TAG_NAME, false, ⟨.TEXT, .NONE, -1, 6, [97, 39], none⟩, ⟨[], [], 0, 0, 0⟩⟩ :=
      runLoopWith_eof _ _ _ _ (by decide)
    show finishRun (runLoopWith stepIter [97, 38, 97, 112, 111, 115, 59] 9 (initState false)) = _
    rw [h0, h1, h2, h3]
    decide
  case right =>
    have h0 : runLoopWith stepIter2 [97, 38, 97, 112, 111, 115, 59] 9 (initState false) = runLoopWith stepIter2 [97, 38, 97, 112, 111, 115, 59] 8 ⟨1, .READING_TEXT_NODE, .READING_TAG_NAME, false, ⟨.TEXT, .NONE, 0, -1, [97], none⟩, ⟨[], [], 0, -1, -1⟩⟩ :=
      runLoopWith_cont _ _ _ _ _ (by decide) (by decide)
    have h1 : runLoopWith stepIter2 [97, 38, 97, 112, 111, 115, 59] 8 ⟨1, .READING_TEXT_NODE, .READING_TAG_NAME, false, ⟨.TEXT, .NONE, 0, -1, [97], none⟩, ⟨[], [], 0, -1, -1⟩⟩ = .thrown .entityTranslationNotFound [] :=
      runLoopWith_throw _ _ _ _ _ (by decide) (by decide)
    show finishRun (runLoopWith stepIter2 [97, 38, 97, 112, 111, 115, 59] 9 (initState false)) = _
    rw [h0, h1]
    decide

/-- C5 amended: the variants' entity translators agree on every entity name
other than `apos`, which only `parseXml`'s table contains (the tokenizers as
a whole are not equivalent, as the counterexample shows). -/
theorem claim_c5 (bytes : List Int) (h : bytes ≠ [97, 112, 111, 115]) :
    _translateEntity bytes = translateEntity bytes := by
  unfold _translateEntity translateEntity entityMapLookup entity_mapLookup
  split_ifs <;> simp_all

/-- C5 witness: the translators agree on `amp`. -/
theorem claim_c5_witness :
    _translateEntity [97, 109, 112] = translateEntity [97, 109, 112] :=
  claim_c5 [97, 109, 112] (by decide)

/-- C9 (confirmed): when `walkXmlNodes`' loop meets a TAG_CLOSE token it pops
the open-tag stack: with an empty stack any closing tag fails (the popped
name is `undefined`); with stack `ps ++ [p]` it fails exactly when
`p.tagName` differs from the closing token's decoded name, and on a match it
continues on the rest of the stream with stack `ps`, invoking no visitor for
this token (the visit trace is that of the continuation, unchanged). -/
theorem claim_c9 (callback : List Nat → XMLNode → List OpenTag → Bool)
    (t : XMLToken) (rest : List XMLToken) (parents : List OpenTag)
    (ht : t.type = .TAG_CLOSE) :
    (parents = [] →
      walkGo callback (t :: rest) parents =
        .mismatch none (getContentAsStr t.content) []) ∧
    (∀ ps p, parents = ps ++ [p] →
      (p.tagName ≠ getContentAsStr t.content →
        walkGo callback (t :: rest) parents =
          .mismatch (some p.tagName) (getContentAsStr t.content) []) ∧
      (p.tagName = getContentAsStr t.content →
        walkGo callback (t :: rest) parents = walkGo callback rest ps)) := by
  constructor
  · rintro rfl
    rw [walkGo]
    simp [ht]
  · rintro ps p rfl
    constructor
    · intro hne
      rw [walkGo]
      simp [ht, Ne.symm hne]
    · intro heq
      rw [walkGo]
      simp [ht, heq]

/-- C9 witness: a matching close against stack `[a]` continues (empty visit
trace), and a close against the empty stack is a mismatch. -/
theorem claim_c9_witness :
    walkGo (fun _ _ _ => false) [⟨.TAG_CLOSE, .ARBITRARY, 0, 2, [97], none⟩] [⟨[97], none⟩] =
      .ok [] ∧
    walkGo (fun _ _ _ => false) [⟨.TAG_CLOSE, .ARBITRARY, 0, 2, [97], none⟩] [] =
      .mismatch none [97] [] := by
  constructor
  · exact (((claim_c9 (fun _ _ _ => false) ⟨.TAG_CLOSE, .ARBITRARY, 0, 2, [97], none⟩ [] _
      rfl).2 [] ⟨[97], none⟩ rfl).2 (by decide)).trans rfl
  · exact (claim_c9 (fun _ _ _ => false) ⟨.TAG_CLOSE, .ARBITRARY, 0, 2, [97], none⟩ [] [] rfl).1 rfl

/-- C10 (confirmed): at the root level (`parentTagName` absent) a TAG_CLOSE
token ends the recursion without any mismatch check: the leaf nodes collected
so far are returned and everything after the stray closing tag is left
unconsumed. -/
theorem claim_c10 (pre : List XMLToken) (t : XMLToken) (rest : List XMLToken)
    (hpre : ∀ q ∈ pre, q.type ≠ XMLTokenType.TAG_CLOSE ∧
      (q.tag = XMLTag.NONE ∨ q.tag = XMLTag.CDATA ∨ q.tag = XMLTag.COMMENT))
    (ht : t.type = .TAG_CLOSE) :
    buildXmlTree (pre.length + 1) (pre ++ t :: rest) none =
      .ok (pre.map (fun q => XMLNode.leaf q.tag (getContentAsStr q.content))) rest := by
  induction pre with
  | nil =>
    rw [buildXmlTree.eq_def]
    simp [ht]
  | cons q qs ih =>
    have hq := hpre q (by simp)
    rw [List.length_cons, List.cons_append, buildXmlTree.eq_def]
    simp only []
    rw [if_neg (by simp [hq.1]), if_pos (by simpa using hq.2)]
    rw [ih (fun x hx => hpre x (by simp [hx]))]
    simp

/-- C10 witness: a text token followed by a stray `</a>` and a trailing token
builds to the single leaf with the trailing token unconsumed. -/
theorem claim_c10_witness :
    buildXmlTree 2
      [⟨.TEXT, .NONE, 0, 1, [104, 105], none⟩,
       ⟨.TAG_CLOSE, .ARBITRARY, 2, 5, [97], none⟩,
       ⟨.TEXT, .NONE, 6, 6, [122], none⟩] none =
      .ok [XMLNode.leaf .NONE [104, 105]] [⟨.TEXT, .NONE, 6, 6, [122], none⟩] :=
  claim_c10 [⟨.TEXT, .NONE, 0, 1, [104, 105], none⟩]
    ⟨.TAG_CLOSE, .ARBITRARY, 2, 5, [97], none⟩
    [⟨.TEXT, .NONE, 6, 6, [122], none⟩] (by decide) rfl

/-- Dispatch after `<` preserves the invariant. -/
theorem noneTagDispatch_inv (xml : List Nat) (s : PState)
    (hattrs : s.token.attributes = none) (hrt : s.rtState = .READING_TAG_NAME)
    (hkey : s.attrib.key = []) :
    stepOutInv (noneTagDispatch xml s) := by
  unfold noneTagDispatch
  dsimp only
  split_ifs <;>
    simp_all [stepOutInv, Inv, attrsOK]

/-- Variant 1's NONE case preserves the invariant. -/
theorem stepNone_inv (xml : List Nat) (s : PState) (c0 : Int) (h : Inv s)
    (hs : s.state = .NONE) : stepOutInv (stepNone xml s c0) := by
  obtain ⟨h1, h2, h3, h4, h5, h6, h7, h8, h9⟩ := h
  have htp := h1 (Or.inl hs)
  have hrt : s.rtState = .READING_TAG_NAME := h4 (by simp [hs])
  have hkey := h6 hrt
  unfold stepNone
  dsimp only
  split_ifs with hc
  · simp_all [stepOutInv, Inv, attrsOK]
  · exact noneTagDispatch_inv xml { s with canSkipWhitespace := false } htp.2 hrt hkey

/-- The comment case preserves the invariant. -/
theorem stepComment_inv (xml : List Nat) (s : PState) (c0 : Int) (h : Inv s)
    (hs : s.state = .READING_COMMENT) : stepOutInv (stepComment xml s c0) := by
  obtain ⟨h1, h2, h3, h4, h5, h6, h7, h8, h9⟩ := h
  have htp := h2 (Or.inl hs)
  have hrt : s.rtState = .READING_TAG_NAME := h4 (by simp [hs])
  have hkey := h6 hrt
  unfold stepComment
  dsimp only
  split_ifs with hc
  · simp_all [stepOutInv, Inv, attrsOK, _resetToken, _resetAttribute]
  · simp_all [stepOutInv, Inv, attrsOK]

/-- The CDATA case preserves the invariant. -/
theorem stepCdata_inv (xml : List Nat) (s : PState) (c0 : Int) (h : Inv s)
    (hs : s.state = .READING_CDATA) : stepOutInv (stepCdata xml s c0) := by
  obtain ⟨h1, h2, h3, h4, h5, h6, h7, h8, h9⟩ := h
  have htp := h2 (Or.inr hs)
  have hrt : s.rtState = .READING_TAG_NAME := h4 (by simp [hs])
  have hkey := h6 hrt
  unfold stepCdata
  dsimp only
  split_ifs with hc
  · simp_all [stepOutInv, Inv, attrsOK, _resetToken, _resetAttribute]
  · simp_all [stepOutInv, Inv, attrsOK]

/-- The text-node case (either variant's translator) preserves the invariant. -/
theorem stepTextNode_inv (translate : List Int → Except TokenizeError Int)
    (xml : List Nat) (s : PState) (c0 : Int) (h : Inv s)
    (hs : s.state = .READING_TEXT_NODE) :
    stepOutInv (stepTextNode translate xml s c0) := by
  obtain ⟨h1, h2, h3, h4, h5, h6, h7, h8, h9⟩ := h
  have htp := h1 (Or.inr hs)
  have hrt : s.rtState = .READING_TAG_NAME := h4 (by simp [hs])
  have hkey := h6 hrt
  unfold stepTextNode
  dsimp only
  split_ifs with hc hamp
  · cases hscan : entityScan xml (s.pos.toNat + 1) with
    | none => simp [stepOutInv]
    | some bytes =>
      cases htr : translate bytes with
      | error e => simp [hscan, htr, stepOutInv]
      | ok v => simp_all [stepOutInv, Inv, attrsOK]
  · simp_all [stepOutInv, Inv, attrsOK]
  · simp_all [stepOutInv, Inv, attrsOK, _resetToken, _resetAttribute]

/-- `alphaHead` is stable under appending on the right. -/
theorem alphaHead_append (l x : List Int) (h : alphaHead l) : alphaHead (l ++ x) := by
  cases l with
  | nil => exact h.elim
  | cons c cs => exact h

/-- A list with an alphabetic head is non-empty. -/
theorem alphaHead_ne_nil (l : List Int) (h : alphaHead l) : l ≠ [] := by
  cases l with
  | nil => exact h.elim
  | cons c cs => simp

/-- The tag-reading case preserves the invariant (given that the loop-top
whitespace skip did not fire for this character). -/
theorem stepTag_inv (xml : List Nat) (s : PState) (c0 : Int) (h : Inv s)
    (hs : s.state = .READING_TAG_UNTIL_CLOSE)
    (hnoskip : s.canSkipWhitespace = true → _isWhitespace c0 = false) :
    stepOutInv (stepTag xml s c0) := by
  obtain ⟨h1, h2, h3, h4, h5, h6, h7, h8, h9⟩ := h
  have htp := h3 hs
  unfold stepTag
  dsimp only
  by_cases hend : (s.rtState = .READING_ATTR_NAME ∨ s.rtState = .READING_TAG_NAME) ∧
      ((c0 = 47 ∧ charCodeAt xml (s.pos + 1) = 62) ∨
       (c0 = 63 ∧ charCodeAt xml (s.pos + 1) = 62) ∨ c0 = 62)
  · rw [if_pos hend]
    split_ifs with hdecl
    · simp [stepOutInv]
    all_goals
      refine ⟨?_, ?_⟩
      · simp_all [Inv, attrsOK, _resetToken, _resetAttribute]
      · simpa [attrsOK] using h5
  · rw [if_neg hend]
    cases hrtv : s.rtState with
    | READING_TAG_NAME =>
      dsimp only
      have hkey := h6 hrtv
      split_ifs with hws hvalid
      · simp_all [stepOutInv, Inv, attrsOK]
      · simp_all [stepOutInv, Inv, attrsOK]
      · simp [stepOutInv]
    | READING_ATTR_NAME =>
      dsimp only
      rcases h7 hrtv with hnil | hhead
      · -- empty key in progress: the whitespace-skip flag is still set
        have hflag := h8 ⟨hrtv, hnil⟩
        have hwsf := hnoskip hflag
        have hc0ne32 : c0 ≠ 32 := by
          intro he
          rw [he] at hwsf
          simp [_isWhitespace] at hwsf
        split_ifs <;>
          simp_all [stepOutInv, Inv, attrsOK, keyOK, alphaHead]
      · -- alphabetic-headed key in progress
        have hkne := alphaHead_ne_nil _ hhead
        have hha := alphaHead_append s.attrib.key [c0] hhead
        have hne2 : s.attrib.key ++ [c0] ≠ [] := by simp
        split_ifs <;>
          simp_all [stepOutInv, Inv, attrsOK, keyOK]
    | EXPECTING_EQUAL_SIGN =>
      dsimp only
      have hko := h9 (Or.inl hrtv)
      split_ifs with heq
      · simp_all [stepOutInv, Inv, attrsOK]
      · simp [stepOutInv]
    | READING_ATTR_VALUE =>
      dsimp only
      have hko := h9 (Or.inr hrtv)
      split_ifs with hterm hquote hesc hclose
      · simp [stepOutInv]
      · simp_all [stepOutInv, Inv, attrsOK]
      · simp_all [stepOutInv, Inv, attrsOK]
      · -- attribute completed: pushed onto the token's list
        dsimp only [stepOutInv, _resetAttribute]
        refine ⟨by simp [hs], by simp [hs], fun _ => htp, fun hx => absurd hs hx,
          ?_, by simp, by simp, by simp, by simp⟩
        dsimp only
        intro l hl a ha
        rw [if_pos rfl] at hl
        cases hl
        rcases List.mem_append.mp ha with hold | hnew
        · cases hta : s.token.attributes with
          | none => rw [hta] at hold; simp at hold
          | some l0 => rw [hta] at hold; exact h5 l0 hta a (by simpa using hold)
        · have ha2 : a = { s.attrib with endIdx := s.pos } := by simpa using hnew
          subst ha2
          exact hko
      · simp_all [stepOutInv, Inv, attrsOK]

/-- One full iteration of variant 1's loop body preserves the invariant. -/
theorem stepIter_inv (xml : List Nat) (s : PState) (h : Inv s) :
    stepOutInv (stepIter xml s) := by
  unfold stepIter
  dsimp only
  split_ifs with hnan hskip
  · simp [stepOutInv]
  · exact h
  · have hnoskip : s.canSkipWhitespace = true → _isWhitespace (charCodeAt xml s.pos) = false := by
      intro hf
      by_contra hw
      rw [Bool.not_eq_false] at hw
      exact hskip (by simp [hf, hw])
    cases hst : s.state with
    | NONE => exact stepNone_inv xml s _ h hst
    | READING_COMMENT => exact stepComment_inv xml s _ h hst
    | READING_CDATA => exact stepCdata_inv xml s _ h hst
    | READING_TEXT_NODE => exact stepTextNode_inv _ xml s _ h hst
    | READING_TAG_UNTIL_CLOSE => exact stepTag_inv xml s _ h hst hnoskip

/-- The initial state satisfies the invariant (for either whitespace flag). -/
theorem Inv_initState (b : Bool) : Inv (initState b) := by
  refine ⟨?_, ?_, ?_, ?_, ?_, ?_, ?_, ?_, ?_⟩ <;> simp [initState, attrsOK]

/-- `prepend` adds the token at the front of the carried list. -/
theorem loopResToks_prepend (t : XMLToken) (r : LoopRes) :
    loopResToks (r.prepend t) = t :: loopResToks r := by
  cases r <;> rfl

/-- A prepended result is an `eof` iff the underlying one is. -/
theorem prepend_eq_eof (t : XMLToken) (r : LoopRes) (ts : List XMLToken) (s1 : PState)
    (h : r.prepend t = .eof ts s1) :
    ∃ ts1, r = .eof ts1 s1 ∧ ts = t :: ts1 := by
  cases r <;> simp_all [LoopRes.prepend]

/-- Every token yielded by variant 1's loop has well-shaped attribute keys,
and the state at a normal end of input still satisfies the invariant. -/
theorem runLoopWith_inv (xml : List Nat) (fuel : Nat) (s : PState) (h : Inv s) :
    (∀ t ∈ loopResToks (runLoopWith stepIter xml fuel s), attrsOK t.attributes) ∧
    (∀ ts s1, runLoopWith stepIter xml fuel s = .eof ts s1 → Inv s1) := by
  induction fuel generalizing s with
  | zero =>
    rw [runLoopWith.eq_def]
    dsimp only
    split_ifs with hpos
    · exact ⟨by simp [loopResToks], by simp⟩
    · exact ⟨by simp [loopResToks], by intro ts s1 he; cases he; exact h⟩
  | succ n ih =>
    rw [runLoopWith.eq_def]
    dsimp only
    split_ifs with hpos
    · have hstep := stepIter_inv xml s h
      cases hsi : stepIter xml s with
      | throw e =>
        simp only [hsi]
        exact ⟨by simp [loopResToks], by simp⟩
      | cont s1 =>
        rw [hsi] at hstep
        simp only [hsi]
        exact ih { s1 with pos := s1.pos + 1 } hstep
      | yield t s1 =>
        rw [hsi] at hstep
        simp only [hsi]
        have hrec := ih { s1 with pos := s1.pos + 1 } hstep.1
        refine ⟨?_, ?_⟩
        · intro x hx
          rw [loopResToks_prepend] at hx
          rcases List.mem_cons.mp hx with hx | hx
          · subst hx; exact hstep.2
          · exact hrec.1 x hx
        · intro ts s2 he
          obtain ⟨ts1, he1, _⟩ := prepend_eq_eof t _ ts s2 he
          exact hrec.2 ts1 s2 he1
      | hang =>
        simp only [hsi]
        exact ⟨by simp [loopResToks], by simp⟩
    · exact ⟨by simp [loopResToks], by intro ts s1 he; cases he; exact h⟩

/-- C3 amended: every attribute of every token produced by `parseXml` has a
non-empty key, and a key of length at least two starts with an alphabetic
character (single-code-point keys may be non-alphabetic, via the
`c1 === EQUAL` lookahead; the original claim's "first code point is
alphabetic" fails, see the counterexample). -/
theorem claim_c3 (xml : List Nat) (fuel : Nat) (flag : Bool) (t : XMLToken)
    (ht : t ∈ tokenizeResToks (parseXml xml fuel flag))
    (attrs : List XMLTokenAttribute) (hattrs : t.attributes = some attrs)
    (a : XMLTokenAttribute) (ha : a ∈ attrs) :
    a.key ≠ [] ∧ (a.key.length = 1 ∨ alphaHead a.key) := by
  have hrun := runLoopWith_inv xml fuel (initState flag) (Inv_initState flag)
  have hmain : attrsOK t.attributes := by
    unfold parseXml runLoop finishRun at ht
    cases hr : runLoopWith stepIter xml fuel (initState flag) with
    | eof ts s1 =>
      have hinv1 := hrun.2 ts s1 hr
      obtain ⟨g1, g2, g3, g4, g5, g6, g7, g8, g9⟩ := hinv1
      rw [hr] at ht
      dsimp only at ht
      unfold finishEOS at ht
      split_ifs at ht with hA hB
      · simp only [tokenizeResToks] at ht
        rcases List.mem_append.mp ht with hx | hx
        · exact hrun.1 t (by rw [hr]; exact hx)
        · have hteq : t = s1.token := by simpa using hx
          subst hteq
          exact g5
      · simp only [tokenizeResToks] at ht
        exact hrun.1 t (by rw [hr]; exact ht)
      · simp only [tokenizeResToks] at ht
        rcases List.mem_append.mp ht with hx | hx
        · exact hrun.1 t (by rw [hr]; exact hx)
        · simp at hx
    | thrown e ts =>
      rw [hr] at ht
      dsimp only [tokenizeResToks] at ht
      exact hrun.1 t (by rw [hr]; exact ht)
    | hung ts =>
      rw [hr] at ht
      dsimp only [tokenizeResToks] at ht
      exact hrun.1 t (by rw [hr]; exact ht)
    | outOfFuel ts =>
      rw [hr] at ht
      dsimp only [tokenizeResToks] at ht
      exact hrun.1 t (by rw [hr]; exact ht)
  exact hmain attrs hattrs a ha

/-- C3 witness: the amended invariant applied to the token of `<a 1='v'>`
and its single attribute (key `1`, length 1). -/
theorem claim_c3_witness :
    ([49] : List Int) ≠ [] ∧ (([49] : List Int).length = 1 ∨ alphaHead [49]) := by
  have heval :
      parseXml [60, 97, 32, 49, 61, 39, 118, 39, 62] 9 false =
        .done [⟨.TAG_OPEN, .ARBITRARY, -1, 8, [97], some [⟨[49], [118], 39, 0, 7⟩]⟩] := by
    have h0 : runLoopWith stepIter [60, 97, 32, 49, 61, 39, 118, 39, 62] 9 (initState false) = runLoopWith stepIter [60, 97, 32, 49, 61, 39, 118, 39, 62] 8 ⟨1, .READING_TAG_UNTIL_CLOSE, .READING_TAG_NAME, false, ⟨.TAG_OPEN, .ARBITRARY, -1, -1, [], none⟩, ⟨[], [], 0, 0, 0⟩⟩ :=
      runLoopWith_cont _ _ _ _ _ (by decide) (by decide)
    have h1 : runLoopWith stepIter [60, 97, 32, 49, 61, 39, 118, 39, 62] 8 ⟨1, .READING_TAG_UNTIL_CLOSE, .READING_TAG_NAME, false, ⟨.TAG_OPEN, .ARBITRARY, -1, -1, [], none⟩, ⟨[], [], 0, 0, 0⟩⟩ = runLoopWith stepIter [60, 97, 32, 49, 61, 39, 118, 39, 62] 7 ⟨2, .READING_TAG_UNTIL_CLOSE, .READING_TAG_NAME, false, ⟨.TAG_OPEN, .ARBITRARY, -1, -1, [97], none⟩, ⟨[], [], 0, 0, 0⟩⟩ :=
      runLoopWith_cont _ _ _ _ _ (by decide) (by decide)
    have h2 : runLoopWith stepIter [60, 97, 32, 49, 61, 39, 118, 39, 62] 7 ⟨2, .READING_TAG_UNTIL_CLOSE, .READING_TAG_NAME, false, ⟨.TAG_OPEN, .ARBITRARY, -1, -1, [97], none⟩, ⟨[], [], 0, 0, 0⟩⟩ = runLoopWith stepIter [60, 97, 32, 49, 61, 39, 118, 39, 62] 6 ⟨3, .READING_TAG_UNTIL_CLOSE, .READING_ATTR_NAME, true, ⟨.TAG_OPEN, .ARBITRARY, -1, -1, [97], none⟩, ⟨[], [], 0, 0, 0⟩⟩ :=
      runLoopWith_cont _ _ _ _ _ (by decide) (by decide)
    have h3 : runLoopWith stepIter [60, 97, 32, 49, 61, 39, 118, 39, 62] 6 ⟨3, .READING_TAG_UNTIL_CLOSE, .READING_ATTR_NAME, true, ⟨.TAG_OPEN, .ARBITRARY, -1, -1, [97], none⟩, ⟨[], [], 0, 0, 0⟩⟩ = runLoopWith stepIter [60, 97, 32, 49, 61, 39, 118, 39, 62] 5 ⟨4, .READING_TAG_UNTIL_CLOSE, .EXPECTING_EQUAL_SIGN, true, ⟨.TAG_OPEN, .ARBITRARY, -1, -1, [97], none⟩, ⟨[49], [], 0, 0, 0⟩⟩ :=
      runLoopWith_cont _ _ _ _ _ (by decide) (by decide)
    have h4 : runLoopWith stepIter [60, 97, 32, 49, 61, 39, 118, 39, 62] 5 ⟨4, .READING_TAG_UNTIL_CLOSE, .EXPECTING_EQUAL_SIGN, true, ⟨.TAG_OPEN, .ARBITRARY, -1, -1, [97], none⟩, ⟨[49], [], 0, 0, 0⟩⟩ = runLoopWith stepIter [60, 97, 32, 49, 61, 39, 118, 39, 62] 4 ⟨5, .READING_TAG_UNTIL_CLOSE, .READING_ATTR_VALUE, true, ⟨.TAG_OPEN, .ARBITRARY, -1, -1, [97], none⟩, ⟨[49], [], 0, 0, 0⟩⟩ :=
      runLoopWith_cont _ _ _ _ _ (by decide) (by decide)
    have h5 : runLoopWith stepIter [60, 97, 32, 49, 61, 39, 118, 39, 62] 4 ⟨5, .READING_TAG_UNTIL_CLOSE, .READING_ATTR_VALUE, true, ⟨.TAG_OPEN, .ARBITRARY, -1, -1, [97], none⟩, ⟨[49], [], 0, 0, 0⟩⟩ = runLoopWith stepIter [60, 97, 32, 49, 61, 39, 118, 39, 62] 3 ⟨6, .READING_TAG_UNTIL_CLOSE, .READING_ATTR_VALUE, false, ⟨.TAG_OPEN, .ARBITRARY, -1, -1, [97], none⟩, ⟨[49], [], 39, 0, 0⟩⟩ :=
      runLoopWith_cont _ _ _ _ _ (by decide) (by decide)
    have h6 : runLoopWith stepIter [60, 97, 32, 49, 61, 39, 118, 39, 62] 3 ⟨6, .READING_TAG_UNTIL_CLOSE, .READING_ATTR_VALUE, false, ⟨.TAG_OPEN, .ARBITRARY, -1, -1, [97], none⟩, ⟨[49], [], 39, 0, 0⟩⟩ = runLoopWith stepIter [60, 97, 32, 49, 61, 39, 118, 39, 62] 2 ⟨7, .READING_TAG_UNTIL_CLOSE, .READING_ATTR_VALUE, false, ⟨.TAG_OPEN, .ARBITRARY, -1, -1, [97], none⟩, ⟨[49], [118], 39, 0, 0⟩⟩ :=
      runLoopWith_cont _ _ _ _ _ (by decide) (by decide)
    have h7 : runLoopWith stepIter [60, 97, 32, 49, 61, 39, 118, 39, 62] 2 ⟨7, .READING_TAG_UNTIL_CLOSE, .READING_ATTR_VALUE, false, ⟨.TAG_OPEN, .ARBITRARY, -1, -1, [97], none⟩, ⟨[49], [118], 39, 0, 0⟩⟩ = runLoopWith stepIter [60, 97, 32, 49, 61, 39, 118, 39, 62] 1 ⟨8, .READING_TAG_UNTIL_CLOSE, .READING_ATTR_NAME, true, ⟨.TAG_OPEN, .ARBITRARY, -1, -1, [97], some [⟨[49], [118], 39, 0, 7⟩]⟩, ⟨[], [], 0, -1, -1⟩⟩ :=
      runLoopWith_cont _ _ _ _ _ (by decide) (by decide)
    have h8 : runLoopWith stepIter [60, 97, 32, 49, 61, 39, 118, 39, 62] 1 ⟨8, .READING_TAG_UNTIL_CLOSE, .READING_ATTR_NAME, true, ⟨.TAG_OPEN, .ARBITRARY, -1, -1, [97], some [⟨[49], [118], 39, 0, 7⟩]⟩, ⟨[], [], 0, -1, -1⟩⟩ = (runLoopWith stepIter [60, 97, 32, 49, 61, 39, 118, 39, 62] 0 ⟨9, .NONE, .READING_TAG_NAME, true, ⟨.TEXT, .NONE, 8, -1, [], none⟩, ⟨[], [], 0, -1, -1⟩⟩).prepend ⟨.TAG_OPEN, .ARBITRARY, -1, 8, [97], some [⟨[49], [118], 39, 0, 7⟩]⟩ :=
      runLoopWith_yield _ _ _ _ _ _ (by decide) (by decide)
    have h9 : runLoopWith stepIter [60, 97, 32, 49, 61, 39, 118, 39, 62] 0 ⟨9, .NONE, .READING_TAG_NAME, true, ⟨.TEXT, .NONE, 8, -1, [], none⟩, ⟨[], [], 0, -1, -1⟩⟩ = .eof [] ⟨9, .NONE, .READING_TAG_NAME, true, ⟨.TEXT, .NONE, 8, -1, [], none⟩, ⟨[], [], 0, -1, -1⟩⟩ :=
      runLoopWith_eof _ _ _ _ (by decide)
    show finishRun (runLoopWith stepIter [60, 97, 32, 49, 61, 39, 118, 39, 62] 9 (initState false)) = _
    rw [h0, h1, h2, h3, h4, h5, h6, h7, h8, h9]
    decide
  exact claim_c3 [60, 97, 32, 49, 61, 39, 118, 39, 62] 9 false
    ⟨.TAG_OPEN, .ARBITRARY, -1, 8, [97], some [⟨[49], [118], 39, 0, 7⟩]⟩
    (by rw [heval]; simp [tokenizeResToks])
    [⟨[49], [118], 39, 0, 7⟩] rfl ⟨[49], [118], 39, 0, 7⟩ (by simp)

/-- C6 (confirmed): when the input is exhausted, a scan state other than
`NONE` and other than an in-progress text run makes `parseXml` throw the
unexpected-end-of-stream error, while an in-progress bare text run is
flushed as a final TEXT token with no error. -/
theorem claim_c6 (xml : List Nat) (fuel : Nat) (flag : Bool)
    (ts : List XMLToken) (s1 : PState)
    (h : runLoop xml fuel (initState flag) = .eof ts s1) :
    (s1.state ≠ .NONE → s1.state ≠ .READING_TEXT_NODE →
      parseXml xml fuel flag = .error .unexpectedEndOfStream ts) ∧
    (s1.state = .READING_TEXT_NODE →
      parseXml xml fuel flag = .done (ts ++ [s1.token])) := by
  have hinv := (runLoopWith_inv xml fuel (initState flag) (Inv_initState flag)).2 ts s1 h
  obtain ⟨g1, g2, g3, g4, g5, g6, g7, g8, g9⟩ := hinv
  have hww : runLoopWith stepIter xml fuel (initState flag) = .eof ts s1 := h
  constructor
  · intro hne hnt
    have htype : s1.token.type ≠ .TEXT := by
      cases hst : s1.state with
      | NONE => exact absurd hst hne
      | READING_TEXT_NODE => exact absurd hst hnt
      | READING_TAG_UNTIL_CLOSE => exact g3 hst
      | READING_COMMENT => rw [(g2 (Or.inl hst)).1]; simp
      | READING_CDATA => rw [(g2 (Or.inr hst)).1]; simp
    unfold parseXml runLoop
    rw [hww]
    unfold finishRun
    dsimp only
    unfold finishEOS
    rw [if_pos hne, if_neg htype]
  · intro hst
    have htype : s1.token.type = .TEXT := (g1 (Or.inr hst)).1
    unfold parseXml runLoop
    rw [hww]
    unfold finishRun
    dsimp only
    unfold finishEOS
    rw [if_pos (by simp [hst]), if_pos htype]

/-- C6 witness: `<!--x` ends inside a comment and errors; `ab` ends inside a
bare text run and flushes it as the final token. -/
theorem claim_c6_witness :
    parseXml [60, 33, 45, 45, 120] 9 false = .error .unexpectedEndOfStream [] ∧
    parseXml [97, 98] 9 false = .done [⟨.TEXT, .NONE, -1, 1, [97, 98], none⟩] := by
  have hr1 : runLoop [60, 33, 45, 45, 120] 9 (initState false) = .eof [] ⟨5, .READING_COMMENT, .READING_TAG_NAME, false, ⟨.TAG_SELF_CLOSE, .COMMENT, 2, 4, [120], none⟩, ⟨[], [], 0, 0, 0⟩⟩ := by
    have h0 : runLoopWith stepIter [60, 33, 45, 45, 120] 9 (initState false) = runLoopWith stepIter [60, 33, 45, 45, 120] 8 ⟨4, .READING_COMMENT, .READING_TAG_NAME, false, ⟨.TAG_SELF_CLOSE, .COMMENT, 2, -1, [], none⟩, ⟨[], [], 0, 0, 0⟩⟩ :=
      runLoopWith_cont _ _ _ _ _ (by decide) (by decide)
    have h1 : runLoopWith stepIter [60, 33, 45, 45, 120] 8 ⟨4, .READING_COMMENT, .READING_TAG_NAME, false, ⟨.TAG_SELF_CLOSE, .COMMENT, 2, -1, [], none⟩, ⟨[], [], 0, 0, 0⟩⟩ = runLoopWith stepIter [60, 33, 45, 45, 120] 7 ⟨5, .READING_COMMENT, .READING_TAG_NAME, false, ⟨.TAG_SELF_CLOSE, .COMMENT, 2, 4, [120], none⟩, ⟨[], [], 0, 0, 0⟩⟩ :=
      runLoopWith_cont _ _ _ _ _ (by decide) (by decide)
    have h2 : runLoopWith stepIter [60, 33, 45, 45, 120] 7 ⟨5, .READING_COMMENT, .READING_TAG_NAME, false, ⟨.TAG_SELF_CLOSE, .COMMENT, 2, 4, [120], none⟩, ⟨[], [], 0, 0, 0⟩⟩ = .eof [] ⟨5, .READING_COMMENT, .READING_TAG_NAME, false, ⟨.TAG_SELF_CLOSE, .COMMENT, 2, 4, [120], none⟩, ⟨[], [], 0, 0, 0⟩⟩ :=
      runLoopWith_eof _ _ _ _ (by decide)
    show runLoopWith stepIter [60, 33, 45, 45, 120] 9 (initState false) = _
    rw [h0, h1, h2]
  have hr2 : runLoop [97, 98] 9 (initState false) = .eof [] ⟨2, .READING_TEXT_NODE, .READING_TAG_NAME, false, ⟨.TEXT, .NONE, -1, 1, [97, 98], none⟩, ⟨[], [], 0, 0, 0⟩⟩ := by
    have h0 : runLoopWith stepIter [97, 98] 9 (initState false) = runLoopWith stepIter [97, 98] 8 ⟨0, .READING_TEXT_NODE, .READING_TAG_NAME, false, ⟨.TEXT, .NONE, -1, -1, [], none⟩, ⟨[], [], 0, 0, 0⟩⟩ :=
      runLoopWith_cont _ _ _ _ _ (by decide) (by decide)
    have h1 : runLoopWith stepIter [97, 98] 8 ⟨0, .READING_TEXT_NODE, .READING_TAG_NAME, false, ⟨.TEXT, .NONE, -1, -1, [], none⟩, ⟨[], [], 0, 0, 0⟩⟩ = runLoopWith stepIter [97, 98] 7 ⟨1, .READING_TEXT_NODE, .READING_TAG_NAME, false, ⟨.TEXT, .NONE, -1, 0, [97], none⟩, ⟨[], [], 0, 0, 0⟩⟩ :=
      runLoopWith_cont _ _ _ _ _ (by decide) (by decide)
    have h2 : runLoopWith stepIter [97, 98] 7 ⟨1, .READING_TEXT_NODE, .READING_TAG_NAME, false, ⟨.TEXT, .NONE, -1, 0, [97], none⟩, ⟨[], [], 0, 0, 0⟩⟩ = runLoopWith stepIter [97, 98] 6 ⟨2, .READING_TEXT_NODE, .READING_TAG_NAME, false, ⟨.TEXT, .NONE, -1, 1, [97, 98], none⟩, ⟨[], [], 0, 0, 0⟩⟩ :=
      runLoopWith_cont _ _ _ _ _ (by decide) (by decide)
    have h3 : runLoopWith stepIter [97, 98] 6 ⟨2, .READING_TEXT_NODE, .READING_TAG_NAME, false, ⟨.TEXT, .NONE, -1, 1, [97, 98], none⟩, ⟨[], [], 0, 0, 0⟩⟩ = .eof [] ⟨2, .READING_TEXT_NODE, .READING_TAG_NAME, false, ⟨.TEXT, .NONE, -1, 1, [97, 98], none⟩, ⟨[], [], 0, 0, 0⟩⟩ :=
      runLoopWith_eof _ _ _ _ (by decide)
    show runLoopWith stepIter [97, 98] 9 (initState false) = _
    rw [h0, h1, h2, h3]
  constructor
  · exact (claim_c6 [60, 33, 45, 45, 120] 9 false _ _ hr1).1 (by decide) (by decide)
  · exact (claim_c6 [97, 98] 9 false _ _ hr2).2 (by decide)

/-- Reading a dropped-list head through `charCodeAt`. -/
theorem charCodeAt_of_drop (xml : List Nat) (p : Nat) (c : Nat) (l : List Nat)
    (h : xml.drop p = c :: l) : charCodeAt xml (p : Int) = c := by
  have hg : xml.get? p = some c := by
    have h0 : (xml.drop p).get? 0 = some c := by rw [h]; rfl
    rwa [List.get?_drop, Nat.add_zero] at h0
  unfold charCodeAt
  rw [if_pos (Int.ofNat_nonneg p)]
  simp only [Int.toNat_ofNat]
  rw [hg]

/-- A valid identifier code point is none of the structurally meaningful
characters of the tag grammar. -/
theorem validIdent_bounds (c : Int) (h : _isValidIdentifier c = true) :
    c ≠ 0 ∧ c ≠ jsNaN ∧ _isWhitespace c = false ∧
    c ≠ 47 ∧ c ≠ 60 ∧ c ≠ 62 ∧ c ≠ 63 := by
  simp only [_isValidIdentifier, _isAlphabetic, _isNumeric, Bool.or_eq_true,
    Bool.and_eq_true, decide_eq_true_eq] at h
  simp only [_isWhitespace, jsNaN, Bool.or_eq_false_iff, decide_eq_false_iff_not]
  omega

/-- A nonempty drop means the index is in range. -/
theorem pos_lt_of_drop (xml : List Nat) (p : Nat) (c : Nat) (l : List Nat)
    (h : xml.drop p = c :: l) : (p : Int) < (xml.length : Int) := by
  have : ¬ xml.length ≤ p := by
    intro hle
    rw [List.drop_eq_nil_of_le hle] at h
    cases h
  omega

/-- Scanning a run of valid-identifier characters in the tag-name sub-state
appends them to the token content and advances `pos` past them. -/
theorem runLoop_tagname (cs : List Nat) (xml rest : List Nat) (fuel : Nat)
    (s : PState) (p : Nat)
    (hpos : s.pos = (p : Int))
    (hst : s.state = .READING_TAG_UNTIL_CLOSE)
    (hrt : s.rtState = .READING_TAG_NAME)
    (hcs : ∀ c ∈ cs, _isValidIdentifier (c : Int) = true)
    (hdrop : xml.drop p = cs ++ rest) :
    runLoopWith stepIter xml (fuel + cs.length) s =
      runLoopWith stepIter xml fuel
        { s with pos := (p : Int) + cs.length,
                 token := { s.token with content := s.token.content ++ cs.map Int.ofNat } } := by
  induction cs generalizing s p with
  | nil =>
    have hseq : { s with pos := (p : Int) + (([] : List Nat).length : Int), token := { s.token with content := s.token.content ++ ([] : List Nat).map Int.ofNat } } = s := by
      obtain ⟨pos, st, rt, skip, tok, att⟩ := s
      obtain ⟨ty, tg, sa, ea, co, at2⟩ := tok
      simp_all
    rw [hseq]
    norm_num
  | cons c cs2 ih =>
    have hdropc : xml.drop p = c :: (cs2 ++ rest) := by simpa using hdrop
    have hc0 : charCodeAt xml s.pos = (c : Int) := by
      rw [hpos]
      exact charCodeAt_of_drop _ _ _ _ hdropc
    have hvc := hcs c (by simp)
    obtain ⟨hf0, hfn, hfws, hf47, hf60, hf62, hf63⟩ := validIdent_bounds _ hvc
    have hstep : stepIter xml s =
        .cont { s with token := { s.token with content := s.token.content ++ [(c : Int)] } } := by
      unfold stepIter
      dsimp only
      rw [hc0]
      rw [if_neg (by simp [hf0, hfn])]
      rw [if_neg (by simp [hfws])]
      rw [hst]
      dsimp only
      unfold stepTag
      dsimp only
      rw [if_neg (by simp [hf47, hf62, hf63])]
      rw [hrt]
      dsimp only
      rw [if_neg (by simp [hfws]), if_pos hvc]
      rw [hst]
    have hadv : stepAdvanced stepIter xml s =
        .cont { s with pos := s.pos + 1,
                       token := { s.token with content := s.token.content ++ [(c : Int)] } } := by
      unfold stepAdvanced
      rw [hstep]
    have hlt : s.pos < (xml.length : Int) := by
      rw [hpos]
      exact pos_lt_of_drop _ _ _ _ hdropc
    rw [show fuel + (c :: cs2).length = (fuel + cs2.length) + 1 from rfl]
    rw [runLoopWith_cont _ _ _ _ _ hlt hadv]
    have hdrop2 : xml.drop (p + 1) = cs2 ++ rest := by
      have := List.drop_drop 1 p xml
      rw [hdropc] at this
      simpa [Nat.add_comm] using this.symm
    rw [ih { s with pos := s.pos + 1, token := { s.token with content := s.token.content ++ [(c : Int)] } } (p + 1) (by simp [hpos]) (by simp [hst]) (by simp [hrt]) (fun x hx => hcs x (by simp [hx])) hdrop2]
    congr 1
    obtain ⟨pos, st, rt, skip, tok, att⟩ := s
    obtain ⟨ty, tg, sa, ea, co, at2⟩ := tok
    simp_all [List.append_assoc]
    push_cast
    ring

/-- An alphabetic code point is in one of the two letter ranges. -/
theorem alpha_bounds (c : Int) (h : _isAlphabetic c = true) :
    64 < c ∧ c < 123 ∧ c ≠ 47 ∧ c ≠ 63 ∧ c ≠ 62 := by
  simp only [_isAlphabetic, Bool.or_eq_true, Bool.and_eq_true, decide_eq_true_eq] at h
  omega

/-- Symbolic step: in NONE, `<` followed by an alphabetic code point opens an
ARBITRARY tag. -/
theorem stepAdvanced_openTag (xml : List Nat) (s : PState) (c1 : Int)
    (hs : s.state = .NONE) (hc0 : charCodeAt xml s.pos = 60)
    (hc1 : charCodeAt xml (s.pos + 1) = c1) (halpha : _isAlphabetic c1 = true) :
    stepAdvanced stepIter xml s =
      .cont { s with canSkipWhitespace := false, state := .READING_TAG_UNTIL_CLOSE, token := { s.token with type := .TAG_OPEN, tag := .ARBITRARY }, pos := s.pos + 1 } := by
  obtain ⟨hb1, hb2, hb3, hb4, hb5⟩ := alpha_bounds c1 halpha
  unfold stepAdvanced stepIter
  dsimp only
  rw [hc0]
  rw [if_neg (by simp [jsNaN])]
  rw [if_neg (by simp [_isWhitespace])]
  rw [hs]
  dsimp only
  unfold stepNone
  dsimp only
  rw [if_neg (by simp)]
  unfold noneTagDispatch
  dsimp only
  rw [hc1]
  rw [if_neg (by omega), if_neg (by omega), if_pos halpha]

/-- Symbolic step: in NONE, `</` opens a closing ARBITRARY tag (skipping the
slash). -/
theorem stepAdvanced_closeTag (xml : List Nat) (s : PState)
    (hs : s.state = .NONE) (hc0 : charCodeAt xml s.pos = 60)
    (hc1 : charCodeAt xml (s.pos + 1) = 47) :
    stepAdvanced stepIter xml s =
      .cont { s with canSkipWhitespace := false, state := .READING_TAG_UNTIL_CLOSE, token := { s.token with type := .TAG_CLOSE, tag := .ARBITRARY, start := s.token.start + 1 }, pos := s.pos + 2 } := by
  unfold stepAdvanced stepIter
  dsimp only
  rw [hc0]
  rw [if_neg (by simp [jsNaN])]
  rw [if_neg (by simp [_isWhitespace])]
  rw [hs]
  dsimp only
  unfold stepNone
  dsimp only
  rw [if_neg (by simp)]
  unfold noneTagDispatch
  dsimp only
  rw [hc1]
  rw [if_neg (by omega), if_pos rfl]
  show StepOut.cont _ = _
  congr 1
  obtain ⟨pos, st, rt, skip, tok, att⟩ := s
  obtain ⟨ty, tg, sa, ea, co, at2⟩ := tok
  simp
  ring

/-- Symbolic step: a bare `>` while reading a tag name yields the token and
resets, keeping the token's type. -/
theorem stepAdvanced_tagGtEnd (xml : List Nat) (s : PState)
    (hs : s.state = .READING_TAG_UNTIL_CLOSE) (hrt : s.rtState = .READING_TAG_NAME)
    (hc0 : charCodeAt xml s.pos = 62) :
    stepAdvanced stepIter xml s =
      .yield { s.token with endIdx := s.pos } ⟨s.pos + 1, .NONE, .READING_TAG_NAME, true, ⟨.TEXT, .NONE, s.pos, -1, [], none⟩, ⟨[], [], 0, -1, -1⟩⟩ := by
  unfold stepAdvanced stepIter
  dsimp only
  rw [hc0]
  rw [if_neg (by simp [jsNaN])]
  rw [if_neg (by simp [_isWhitespace])]
  rw [hs]
  dsimp only
  unfold stepTag
  dsimp only
  rw [if_pos (by exact ⟨Or.inr hrt, Or.inr (Or.inr rfl)⟩)]
  rw [if_neg (by simp)]
  unfold _resetToken _resetAttribute
  dsimp only
  show StepOut.yield _ _ = _
  congr 1
  · obtain ⟨ty, tg, sa, ea, co, at2⟩ := s.token
    simp
  · simp

/-- Symbolic step: `/>` while reading a tag name yields a self-closed token
and resets, skipping the slash. -/
theorem stepAdvanced_tagSelfCloseEnd (xml : List Nat) (s : PState)
    (hs : s.state = .READING_TAG_UNTIL_CLOSE) (hrt : s.rtState = .READING_TAG_NAME)
    (hc0 : charCodeAt xml s.pos = 47) (hc1 : charCodeAt xml (s.pos + 1) = 62) :
    stepAdvanced stepIter xml s =
      .yield { s.token with type := .TAG_SELF_CLOSE, endIdx := s.pos + 1 } ⟨s.pos + 2, .NONE, .READING_TAG_NAME, true, ⟨.TEXT, .NONE, s.pos, -1, [], none⟩, ⟨[], [], 0, -1, -1⟩⟩ := by
  unfold stepAdvanced stepIter
  dsimp only
  rw [hc0]
  rw [if_neg (by simp [jsNaN])]
  rw [if_neg (by simp [_isWhitespace])]
  rw [hs]
  dsimp only
  unfold stepTag
  dsimp only
  rw [hc1]
  rw [if_pos (by exact ⟨Or.inr hrt, Or.inl ⟨rfl, rfl⟩⟩)]
  rw [if_neg (by simp)]
  unfold _resetToken _resetAttribute
  dsimp only
  show StepOut.yield _ _ = _
  congr 1
  all_goals obtain ⟨ty, tg, sa, ea, co, at2⟩ := s.token
  all_goals simp
  all_goals ring

/-- Tokenizing `<T></T>` for a valid tag name `T`: one TAG_OPEN and one
TAG_CLOSE token, both with content `T`. -/
theorem parseXml_openclose (T : List Nat) (c : Nat) (cs : List Nat) (hT : T = c :: cs)
    (hc : _isAlphabetic (Int.ofNat c) = true)
    (hall : ∀ x ∈ T, _isValidIdentifier (Int.ofNat x) = true) :
    parseXml (60 :: (T ++ (62 :: (60 :: (47 :: (T ++ [62])))))) (2 * T.length + 4) false =
      .done [⟨.TAG_OPEN, .ARBITRARY, -1, (T.length : Int) + 1, T.map Int.ofNat, none⟩,
             ⟨.TAG_CLOSE, .ARBITRARY, (T.length : Int) + 2, 2 * (T.length : Int) + 4, T.map Int.ofNat, none⟩] := by
  have hlen : ((60 :: (T ++ (62 :: (60 :: (47 :: (T ++ [62]))))))).length = 2 * T.length + 5 := by
    simp
    omega
  have hd1 : ((60 :: (T ++ (62 :: (60 :: (47 :: (T ++ [62]))))))).drop 1 = T ++ (62 :: (60 :: (47 :: (T ++ [62])))) := rfl
  have hdn1 : ((60 :: (T ++ (62 :: (60 :: (47 :: (T ++ [62]))))))).drop (T.length + 1) = (62 :: (60 :: (47 :: (T ++ [62])))) := by
    rw [List.drop_succ_cons]
    exact List.drop_left T _
  have hdn2 : ((60 :: (T ++ (62 :: (60 :: (47 :: (T ++ [62]))))))).drop (T.length + 2) = (60 :: (47 :: (T ++ [62]))) := by
    have h := List.drop_drop 1 (T.length + 1) (60 :: (T ++ (62 :: (60 :: (47 :: (T ++ [62]))))))
    rw [hdn1] at h
    exact h.symm
  have hdn3 : ((60 :: (T ++ (62 :: (60 :: (47 :: (T ++ [62]))))))).drop (T.length + 3) = (47 :: (T ++ [62])) := by
    have h := List.drop_drop 1 (T.length + 2) (60 :: (T ++ (62 :: (60 :: (47 :: (T ++ [62]))))))
    rw [hdn2] at h
    exact h.symm
  have hdn4 : ((60 :: (T ++ (62 :: (60 :: (47 :: (T ++ [62]))))))).drop (T.length + 4) = T ++ [62] := by
    have h := List.drop_drop 1 (T.length + 3) (60 :: (T ++ (62 :: (60 :: (47 :: (T ++ [62]))))))
    rw [hdn3] at h
    exact h.symm
  have hd2n4 : ((60 :: (T ++ (62 :: (60 :: (47 :: (T ++ [62]))))))).drop (2 * T.length + 4) = [62] := by
    have h := List.drop_drop T.length (T.length + 4) (60 :: (T ++ (62 :: (60 :: (47 :: (T ++ [62]))))))
    rw [hdn4] at h
    rw [show 2 * T.length + 4 = T.length + 4 + T.length from by omega]
    rw [← h]
    exact List.drop_left T [62]
  have hcc0 : charCodeAt (60 :: (T ++ (62 :: (60 :: (47 :: (T ++ [62])))))) 0 = 60 := by
    simpa using charCodeAt_of_drop (60 :: (T ++ (62 :: (60 :: (47 :: (T ++ [62])))))) 0 60 _ rfl
  have hcc1 : charCodeAt (60 :: (T ++ (62 :: (60 :: (47 :: (T ++ [62])))))) (0 + 1) = Int.ofNat c := by
    simpa using charCodeAt_of_drop (60 :: (T ++ (62 :: (60 :: (47 :: (T ++ [62])))))) 1 c _ (by rw [hd1, hT]; rfl)
  have hccGt1 : charCodeAt (60 :: (T ++ (62 :: (60 :: (47 :: (T ++ [62])))))) (1 + (T.length : Int)) = 62 := by
    rw [show (1 + (T.length : Int)) = ((T.length + 1 : Nat) : Int) from by push_cast; ring]
    exact charCodeAt_of_drop (60 :: (T ++ (62 :: (60 :: (47 :: (T ++ [62])))))) (T.length + 1) 62 _ hdn1
  have hccLt2 : charCodeAt (60 :: (T ++ (62 :: (60 :: (47 :: (T ++ [62])))))) (1 + (T.length : Int) + 1) = 60 := by
    rw [show (1 + (T.length : Int) + 1) = ((T.length + 2 : Nat) : Int) from by push_cast; ring]
    exact charCodeAt_of_drop (60 :: (T ++ (62 :: (60 :: (47 :: (T ++ [62])))))) (T.length + 2) 60 _ hdn2
  have hccSl2 : charCodeAt (60 :: (T ++ (62 :: (60 :: (47 :: (T ++ [62])))))) (1 + (T.length : Int) + 1 + 1) = 47 := by
    rw [show (1 + (T.length : Int) + 1 + 1) = ((T.length + 3 : Nat) : Int) from by push_cast; ring]
    exact charCodeAt_of_drop (60 :: (T ++ (62 :: (60 :: (47 :: (T ++ [62])))))) (T.length + 3) 47 _ hdn3
  have hccGt2 : charCodeAt (60 :: (T ++ (62 :: (60 :: (47 :: (T ++ [62])))))) (((T.length + 4 : Nat) : Int) + (T.length : Int)) = 62 := by
    rw [show (((T.length + 4 : Nat) : Int) + (T.length : Int)) = ((2 * T.length + 4 : Nat) : Int) from by push_cast; ring]
    exact charCodeAt_of_drop (60 :: (T ++ (62 :: (60 :: (47 :: (T ++ [62])))))) (2 * T.length + 4) 62 _ hd2n4
  rw [show 2 * T.length + 4 = T.length + (T.length + 4) from by omega]
  show finishRun (runLoopWith stepIter (60 :: (T ++ (62 :: (60 :: (47 :: (T ++ [62])))))) (T.length + (T.length + 4)) (initState false)) = _
  have e1 : runLoopWith stepIter (60 :: (T ++ (62 :: (60 :: (47 :: (T ++ [62])))))) (T.length + (T.length + 4)) (initState false) =
      runLoopWith stepIter (60 :: (T ++ (62 :: (60 :: (47 :: (T ++ [62])))))) (T.length + (T.length + 3)) ⟨1, .READING_TAG_UNTIL_CLOSE, .READING_TAG_NAME, false, ⟨.TAG_OPEN, .ARBITRARY, -1, -1, [], none⟩, ⟨[], [], 0, 0, 0⟩⟩ :=
    runLoopWith_cont _ _ (T.length + (T.length + 3)) _ _ (by rw [hlen]; simp [initState]; omega)
      (stepAdvanced_openTag _ _ (Int.ofNat c) rfl hcc0 hcc1 hc)
  rw [e1]
  rw [show T.length + (T.length + 3) = (T.length + 3) + T.length from by omega]
  rw [runLoop_tagname T (60 :: (T ++ (62 :: (60 :: (47 :: (T ++ [62])))))) (62 :: (60 :: (47 :: (T ++ [62])))) (T.length + 3) ⟨1, .READING_TAG_UNTIL_CLOSE, .READING_TAG_NAME, false, ⟨.TAG_OPEN, .ARBITRARY, -1, -1, [], none⟩, ⟨[], [], 0, 0, 0⟩⟩ 1 rfl rfl rfl hall hd1]
  show finishRun (runLoopWith stepIter (60 :: (T ++ (62 :: (60 :: (47 :: (T ++ [62])))))) (T.length + 3) ⟨1 + (T.length : Int), .READING_TAG_UNTIL_CLOSE, .READING_TAG_NAME, false, ⟨.TAG_OPEN, .ARBITRARY, -1, -1, T.map Int.ofNat, none⟩, ⟨[], [], 0, 0, 0⟩⟩) = _
  have e2 : runLoopWith stepIter (60 :: (T ++ (62 :: (60 :: (47 :: (T ++ [62])))))) (T.length + 3) ⟨1 + (T.length : Int), .READING_TAG_UNTIL_CLOSE, .READING_TAG_NAME, false, ⟨.TAG_OPEN, .ARBITRARY, -1, -1, T.map Int.ofNat, none⟩, ⟨[], [], 0, 0, 0⟩⟩ =
      (runLoopWith stepIter (60 :: (T ++ (62 :: (60 :: (47 :: (T ++ [62])))))) (T.length + 2) ⟨1 + (T.length : Int) + 1, .NONE, .READING_TAG_NAME, true, ⟨.TEXT, .NONE, 1 + (T.length : Int), -1, [], none⟩, ⟨[], [], 0, -1, -1⟩⟩).prepend ⟨.TAG_OPEN, .ARBITRARY, -1, 1 + (T.length : Int), T.map Int.ofNat, none⟩ :=
    runLoopWith_yield _ _ (T.length + 2) _ _ _ (by rw [hlen]; push_cast; omega)
      (stepAdvanced_tagGtEnd _ _ rfl rfl hccGt1)
  rw [e2]
  have e3 : runLoopWith stepIter (60 :: (T ++ (62 :: (60 :: (47 :: (T ++ [62])))))) (T.length + 2) ⟨1 + (T.length : Int) + 1, .NONE, .READING_TAG_NAME, true, ⟨.TEXT, .NONE, 1 + (T.length : Int), -1, [], none⟩, ⟨[], [], 0, -1, -1⟩⟩ =
      runLoopWith stepIter (60 :: (T ++ (62 :: (60 :: (47 :: (T ++ [62])))))) (T.length + 1) ⟨1 + (T.length : Int) + 1 + 2, .READING_TAG_UNTIL_CLOSE, .READING_TAG_NAME, false, ⟨.TAG_CLOSE, .ARBITRARY, 1 + (T.length : Int) + 1, -1, [], none⟩, ⟨[], [], 0, -1, -1⟩⟩ :=
    runLoopWith_cont _ _ (T.length + 1) _ _ (by rw [hlen]; push_cast; omega)
      (stepAdvanced_closeTag _ _ rfl hccLt2 hccSl2)
  rw [e3]
  rw [show T.length + 1 = 1 + T.length from by omega]
  rw [runLoop_tagname T (60 :: (T ++ (62 :: (60 :: (47 :: (T ++ [62])))))) [62] 1 ⟨1 + (T.length : Int) + 1 + 2, .READING_TAG_UNTIL_CLOSE, .READING_TAG_NAME, false, ⟨.TAG_CLOSE, .ARBITRARY, 1 + (T.length : Int) + 1, -1, [], none⟩, ⟨[], [], 0, -1, -1⟩⟩ (T.length + 4) (by push_cast; ring) rfl rfl hall hdn4]
  show finishRun ((runLoopWith stepIter (60 :: (T ++ (62 :: (60 :: (47 :: (T ++ [62])))))) 1 ⟨((T.length + 4 : Nat) : Int) + (T.length : Int), .READING_TAG_UNTIL_CLOSE, .READING_TAG_NAME, false, ⟨.TAG_CLOSE, .ARBITRARY, 1 + (T.length : Int) + 1, -1, T.map Int.ofNat, none⟩, ⟨[], [], 0, -1, -1⟩⟩).prepend ⟨.TAG_OPEN, .ARBITRARY, -1, 1 + (T.length : Int), T.map Int.ofNat, none⟩) = _
  have e4 : runLoopWith stepIter (60 :: (T ++ (62 :: (60 :: (47 :: (T ++ [62])))))) 1 ⟨((T.length + 4 : Nat) : Int) + (T.length : Int), .READING_TAG_UNTIL_CLOSE, .READING_TAG_NAME, false, ⟨.TAG_CLOSE, .ARBITRARY, 1 + (T.length : Int) + 1, -1, T.map Int.ofNat, none⟩, ⟨[], [], 0, -1, -1⟩⟩ =
      (runLoopWith stepIter (60 :: (T ++ (62 :: (60 :: (47 :: (T ++ [62])))))) 0 ⟨((T.length + 4 : Nat) : Int) + (T.length : Int) + 1, .NONE, .READING_TAG_NAME, true, ⟨.TEXT, .NONE, ((T.length + 4 : Nat) : Int) + (T.length : Int), -1, [], none⟩, ⟨[], [], 0, -1, -1⟩⟩).prepend ⟨.TAG_CLOSE, .ARBITRARY, 1 + (T.length : Int) + 1, ((T.length + 4 : Nat) : Int) + (T.length : Int), T.map Int.ofNat, none⟩ :=
    runLoopWith_yield _ _ 0 _ _ _ (by rw [hlen]; push_cast; omega)
      (stepAdvanced_tagGtEnd _ _ rfl rfl hccGt2)
  rw [e4]
  rw [runLoopWith_eof _ _ 0 _ (by rw [hlen]; push_cast; omega)]
  show TokenizeResult.done _ = _
  simp only [TokenizeResult.done.injEq, List.append_nil, List.cons.injEq, XMLToken.mk.injEq,
    and_true, true_and]
  push_cast
  omega

/-- Tokenizing `<T/>` for a valid tag name `T`: a single TAG_SELF_CLOSE token
with content `T`. -/
theorem parseXml_selfclose (T : List Nat) (c : Nat) (cs : List Nat) (hT : T = c :: cs)
    (hc : _isAlphabetic (Int.ofNat c) = true)
    (hall : ∀ x ∈ T, _isValidIdentifier (Int.ofNat x) = true) :
    parseXml (60 :: (T ++ [47, 62])) (T.length + 2) false =
      .done [⟨.TAG_SELF_CLOSE, .ARBITRARY, -1, (T.length : Int) + 2, T.map Int.ofNat, none⟩] := by
  have hlen : ((60 :: (T ++ [47, 62]))).length = T.length + 3 := by
    simp
  have hd1 : ((60 :: (T ++ [47, 62]))).drop 1 = T ++ [47, 62] := rfl
  have hdn1 : ((60 :: (T ++ [47, 62]))).drop (T.length + 1) = [47, 62] := by
    rw [List.drop_succ_cons]
    exact List.drop_left T _
  have hdn2 : ((60 :: (T ++ [47, 62]))).drop (T.length + 2) = [62] := by
    have h := List.drop_drop 1 (T.length + 1) (60 :: (T ++ [47, 62]))
    rw [hdn1] at h
    exact h.symm
  have hcc0 : charCodeAt (60 :: (T ++ [47, 62])) 0 = 60 := by
    simpa using charCodeAt_of_drop (60 :: (T ++ [47, 62])) 0 60 _ rfl
  have hcc1 : charCodeAt (60 :: (T ++ [47, 62])) (0 + 1) = Int.ofNat c := by
    simpa using charCodeAt_of_drop (60 :: (T ++ [47, 62])) 1 c _ (by rw [hd1, hT]; rfl)
  have hccSl : charCodeAt (60 :: (T ++ [47, 62])) (1 + (T.length : Int)) = 47 := by
    rw [show (1 + (T.length : Int)) = ((T.length + 1 : Nat) : Int) from by push_cast; ring]
    exact charCodeAt_of_drop (60 :: (T ++ [47, 62])) (T.length + 1) 47 _ hdn1
  have hccGt : charCodeAt (60 :: (T ++ [47, 62])) (1 + (T.length : Int) + 1) = 62 := by
    rw [show (1 + (T.length : Int) + 1) = ((T.length + 2 : Nat) : Int) from by push_cast; ring]
    exact charCodeAt_of_drop (60 :: (T ++ [47, 62])) (T.length + 2) 62 _ hdn2
  show finishRun (runLoopWith stepIter (60 :: (T ++ [47, 62])) (T.length + 2) (initState false)) = _
  have e1 : runLoopWith stepIter (60 :: (T ++ [47, 62])) (T.length + 2) (initState false) =
      runLoopWith stepIter (60 :: (T ++ [47, 62])) (T.length + 1) ⟨1, .READING_TAG_UNTIL_CLOSE, .READING_TAG_NAME, false, ⟨.TAG_OPEN, .ARBITRARY, -1, -1, [], none⟩, ⟨[], [], 0, 0, 0⟩⟩ :=
    runLoopWith_cont _ _ (T.length + 1) _ _ (by rw [hlen]; simp [initState]; omega)
      (stepAdvanced_openTag _ _ (Int.ofNat c) rfl hcc0 hcc1 hc)
  rw [e1]
  rw [show T.length + 1 = 1 + T.length from by omega]
  rw [runLoop_tagname T (60 :: (T ++ [47, 62])) [47, 62] 1 ⟨1, .READING_TAG_UNTIL_CLOSE, .READING_TAG_NAME, false, ⟨.TAG_OPEN, .ARBITRARY, -1, -1, [], none⟩, ⟨[], [], 0, 0, 0⟩⟩ 1 rfl rfl rfl hall hd1]
  show finishRun (runLoopWith stepIter (60 :: (T ++ [47, 62])) 1 ⟨1 + (T.length : Int), .READING_TAG_UNTIL_CLOSE, .READING_TAG_NAME, false, ⟨.TAG_OPEN, .ARBITRARY, -1, -1, T.map Int.ofNat, none⟩, ⟨[], [], 0, 0, 0⟩⟩) = _
  have e2 : runLoopWith stepIter (60 :: (T ++ [47, 62])) 1 ⟨1 + (T.length : Int), .READING_TAG_UNTIL_CLOSE, .READING_TAG_NAME, false, ⟨.TAG_OPEN, .ARBITRARY, -1, -1, T.map Int.ofNat, none⟩, ⟨[], [], 0, 0, 0⟩⟩ =
      (runLoopWith stepIter (60 :: (T ++ [47, 62])) 0 ⟨1 + (T.length : Int) + 2, .NONE, .READING_TAG_NAME, true, ⟨.TEXT, .NONE, 1 + (T.length : Int), -1, [], none⟩, ⟨[], [], 0, -1, -1⟩⟩).prepend ⟨.TAG_SELF_CLOSE, .ARBITRARY, -1, 1 + (T.length : Int) + 1, T.map Int.ofNat, none⟩ :=
    runLoopWith_yield _ _ 0 _ _ _ (by rw [hlen]; push_cast; omega)
      (stepAdvanced_tagSelfCloseEnd _ _ rfl rfl hccSl hccGt)
  rw [e2]
  rw [runLoopWith_eof _ _ 0 _ (by rw [hlen]; push_cast; omega)]
  show TokenizeResult.done _ = _
  simp only [TokenizeResult.done.injEq, List.append_nil, List.cons.injEq, XMLToken.mk.injEq,
    and_true, true_and]
  push_cast
  omega

/-- Decoding a content array made of valid-identifier code points is the
identity (codes are positive and below 2^16, so `fromCharCode` undoes
`Int.ofNat`). -/
theorem getContentAsStr_map (T : List Nat)
    (hall : ∀ x ∈ T, _isValidIdentifier (Int.ofNat x) = true) :
    getContentAsStr (T.map Int.ofNat) = T := by
  induction T with
  | nil => rfl
  | cons a t ih =>
    have ha := hall a (by simp)
    have hb : fromCharCode (Int.ofNat a) = a := by
      simp only [_isValidIdentifier, _isAlphabetic, _isNumeric, Bool.or_eq_true,
        Bool.and_eq_true, decide_eq_true_eq] at ha
      simp only [fromCharCode, jsNaN, Int.ofNat_eq_natCast] at ha ⊢
      rw [if_neg (by omega)]
      show (((a : Int)) % 65536).toNat = a
      omega
    have ih2 := ih (fun x hx => hall x (by simp [hx]))
    simp only [getContentAsStr, List.map_cons] at ih2 ⊢
    rw [hb, ih2]

/-- Building an open/close token pair at the root: one element with an empty
(but present) children list. -/
theorem buildXmlTree_pair (co : List Int) (a b d e : Int) :
    buildXmlTree 3 [⟨.TAG_OPEN, .ARBITRARY, a, b, co, none⟩, ⟨.TAG_CLOSE, .ARBITRARY, d, e, co, none⟩] none =
      .ok [.element .ARBITRARY (getContentAsStr co) none (some [])] [] := by
  simp [buildXmlTree]

/-- Building a single self-close token at the root: one element with the
children field absent. -/
theorem buildXmlTree_selfclose (co : List Int) (a b : Int) :
    buildXmlTree 2 [⟨.TAG_SELF_CLOSE, .ARBITRARY, a, b, co, none⟩] none =
      .ok [.element .ARBITRARY (getContentAsStr co) none none] [] := by
  simp [buildXmlTree]

/-- C7 (confirmed): for any tag name `T` (alphabetic first code point, all
code points valid identifier characters), tokenizing and tree-building
`<T></T>` yields one Element whose children field is present and equal to the
empty list, while `<T/>` yields one Element whose children field is absent. -/
theorem claim_c7 (T : List Nat) (c : Nat) (cs : List Nat) (hT : T = c :: cs)
    (hc : _isAlphabetic (Int.ofNat c) = true)
    (hall : ∀ x ∈ T, _isValidIdentifier (Int.ofNat x) = true) :
    (∃ openTok closeTok,
      parseXml (60 :: (T ++ (62 :: (60 :: (47 :: (T ++ [62])))))) (2 * T.length + 4) false =
        .done [openTok, closeTok] ∧
      buildXmlTree 3 [openTok, closeTok] none =
        .ok [.element .ARBITRARY T none (some [])] []) ∧
    (∃ selfTok,
      parseXml (60 :: (T ++ [47, 62])) (T.length + 2) false = .done [selfTok] ∧
      buildXmlTree 2 [selfTok] none =
        .ok [.element .ARBITRARY T none none] []) := by
  have hmap : getContentAsStr (T.map Int.ofNat) = T := getContentAsStr_map T hall
  refine ⟨⟨_, _, parseXml_openclose T c cs hT hc hall, ?_⟩,
          ⟨_, parseXml_selfclose T c cs hT hc hall, ?_⟩⟩
  · rw [buildXmlTree_pair, hmap]
  · rw [buildXmlTree_selfclose, hmap]

/-- C7 witness: tag name "T" (code 84): `<T></T>` builds to an element with
`some []` children, `<T/>` to an element with `none`. -/
theorem claim_c7_witness :
    (∃ openTok closeTok,
      parseXml [60, 84, 62, 60, 47, 84, 62] 6 false = .done [openTok, closeTok] ∧
      buildXmlTree 3 [openTok, closeTok] none =
        .ok [.element .ARBITRARY [84] none (some [])] []) ∧
    (∃ selfTok,
      parseXml [60, 84, 47, 62] 3 false = .done [selfTok] ∧
      buildXmlTree 2 [selfTok] none = .ok [.element .ARBITRARY [84] none none] []) :=
  claim_c7 [84] 84 [] rfl (by decide) (by decide)

end Txml
